import Mathlib

/-!
Verification of the resumable Arch Linux installation sequencer
(src/src/main.rs) against its natural-language specification.

Rust strings are modelled as lists of characters (`Str`).  Each definition
below embeds the corresponding function of the source; stateful code is
modelled by explicit state passing, external commands by their observable
outcome values, and Rust panics (`expect`, out-of-bounds indexing,
`unwrap`) by an explicit `panic`-style constructor of the result type.
-/

/-- Rust strings, modelled as lists of characters. -/
abbrev Str := List Char

/-- Boolean test that `pat` is a prefix of `s` (charwise equality). -/
def isPrefixB : Str → Str → Bool
  | [], _ => true
  | _ :: _, [] => false
  | a :: as, b :: bs => a = b && isPrefixB as bs

/-- Boolean substring test, embedding Rust `str::contains` with a literal
pattern: `containsB pat s` is true when `pat` occurs contiguously in `s`. -/
def containsB (pat : Str) : Str → Bool
  | [] => isPrefixB pat []
  | c :: rest => isPrefixB pat (c :: rest) || containsB pat rest

/-- Splitting on a single separator character, embedding Rust
`str::split(sep)` for a one-character separator: always returns at least
one (possibly empty) segment, and keeps empty segments. -/
def splitOnChar (c : Char) : Str → List Str
  | [] => [[]]
  | x :: xs =>
    if x = c then [] :: splitOnChar c xs
    else
      match splitOnChar c xs with
      | [] => [[x]]
      | y :: ys => (x :: y) :: ys

/-- Joining a list of segments with a separator character; this is the
shape produced by the source's `format!` string with `\n` separators. -/
def joinWith (c : Char) : List Str → Str
  | [] => []
  | [f] => f
  | f :: g :: rest => f ++ c :: joinWith c (g :: rest)

/-- One step of Rust `str::replace` with an explicit fuel argument (the
fuel is initialised to the length of the subject string, which always
suffices because every recursive call consumes at least one character).
Replacement is leftmost and non-overlapping, as in Rust.  The source only
ever calls `replace` with non-empty patterns; for an empty pattern this
model leaves the string unchanged. -/
def replaceAllAux (pat rep : Str) : Nat → Str → Str
  | _, [] => []
  | 0, s => s
  | fuel + 1, c :: rest =>
    if pat ≠ [] ∧ isPrefixB pat (c :: rest) = true then
      rep ++ replaceAllAux pat rep fuel (List.drop (pat.length - 1) rest)
    else
      c :: replaceAllAux pat rep fuel rest

/-- Embedding of Rust `str::replace(pat, rep)` for literal patterns. -/
def replaceAll (pat rep s : Str) : Str :=
  replaceAllAux pat rep s.length s

/-- Decimal digits of a natural number (fuel-driven so that it reduces by
kernel computation); embeds the `{}` formatting of a `u8` value. -/
def natToStrAux : Nat → Nat → Str
  | 0, _ => []
  | _, 0 => []
  | fuel + 1, n + 1 => natToStrAux fuel ((n + 1) / 10) ++ [Nat.digitChar ((n + 1) % 10)]

/-- Decimal representation of a natural number. -/
def natToStr (n : Nat) : Str := if n = 0 then ['0'] else natToStrAux n n

/-- Numeric value of a decimal digit character. -/
def digitVal (c : Char) : Nat := c.toNat - 48

/-- Embedding of Rust `str::parse::<u8>()`: an optional leading plus sign,
then one or more decimal digits whose value fits in eight bits; anything
else fails. -/
def parseU8 (s : Str) : Option Nat :=
  let t := match s with
           | '+' :: rest => rest
           | _ => s
  if t = [] then none
  else if t.all (fun c => c.isDigit) then
    let v := t.foldl (fun a c => a * 10 + digitVal c) 0
    if v < 256 then some v else none
  else none

/-- Escaping of one character under Rust `{:?}` formatting of a string:
the double quote, backslash, and the common control characters are
escaped; printable characters are kept verbatim.  (Rust also escapes other
control characters; the theorems below only evaluate this model on
printable data, where the two agree.) -/
def escChar (c : Char) : Str :=
  if c = '"' then ['\\', '"']
  else if c = '\\' then ['\\', '\\']
  else if c = '\n' then ['\\', 'n']
  else if c = '\t' then ['\\', 't']
  else if c = '\r' then ['\\', 'r']
  else [c]

/-- Rust `{:?}` body of a string: every character escaped. -/
def escapeDebug (s : Str) : Str := s.foldr (fun c r => escChar c ++ r) []

/-- Rust `{}` formatting of a boolean. -/
def boolStr (b : Bool) : Str := if b then "true".toList else "false".toList

/-- The text the `bool_ask` prompt records for an affirmative or negative
answer (the canonical lowercase form; the uppercase variants behave
identically in every branch modelled here). -/
def boolText (b : Bool) : Str := if b then ['y'] else ['n']

/-- Rust `{:?}` formatting of an `Option<String>` field, as written by
`save_config`: `None`, or `Some("…")` with the value Debug-escaped. -/
def formatOptField : Option Str → Str
  | none => "None".toList
  | some v => "Some(\"".toList ++ escapeDebug v ++ "\")".toList

/-- The mutable application state of the installer, embedding the
`AppConfig` struct of the source field by field (machine integers become
naturals; their eight-bit range is enforced where it matters). -/
structure AppConfig where
  uefi_install : Bool
  uefi_partition : Option Str
  boot_partition : Option Str
  root_partition : Str
  home_partition : Option Str
  username : Str
  encrypted_partitons : Bool
  swap_partition : Option Str
  current_installation_step : Nat
  total_installation_steps : Nat
deriving DecidableEq, Repr

/-- Embedding of `AppConfig::new`. -/
def AppConfig.new (total : Nat) : AppConfig where
  uefi_install := false
  uefi_partition := none
  boot_partition := none
  root_partition := []
  home_partition := none
  username := []
  encrypted_partitons := false
  swap_partition := none
  current_installation_step := 1
  total_installation_steps := total

/-- Embedding of `AppConfig::reset`: every collected field is returned to
its default and the step index to 1, while `total_installation_steps` is
kept. -/
def AppConfig.reset (c : AppConfig) : AppConfig where
  uefi_install := false
  uefi_partition := none
  boot_partition := none
  root_partition := []
  home_partition := none
  username := []
  encrypted_partitons := false
  swap_partition := none
  current_installation_step := 1
  total_installation_steps := c.total_installation_steps

/-- The ten lines of the persisted record, in the order of the
`format!` call in `save_config`. -/
def saveFields (c : AppConfig) : List Str :=
  [ boolStr c.uefi_install
  , formatOptField c.uefi_partition
  , formatOptField c.boot_partition
  , c.root_partition
  , formatOptField c.home_partition
  , c.username
  , boolStr c.encrypted_partitons
  , formatOptField c.swap_partition
  , natToStr c.current_installation_step
  , natToStr c.total_installation_steps ]

/-- Embedding of `AppConfig::save_config`: the file content written to
`./arch_linux_installer.conf`. -/
def save_config_string (c : AppConfig) : Str := joinWith '\n' (saveFields c)

/-- The literal text `true`, against which the loader compares boolean
fields. -/
def trueStr : Str := "true".toList

/-- Result of loading the persisted record.  `err` models the `Err` value
returned when the file cannot be read (no prior run); `panic` models a
Rust panic raised by `expect` or by an out-of-bounds index while parsing
a present but malformed record. -/
inductive LoadResult where
  | ok (c : AppConfig)
  | err
  | panic
deriving DecidableEq, Repr

/-- Embedding of `AppConfig::extract_some_value`: split on the double
quote and take element 1; `none` models the index panic when the field
contains no quote. -/
def extract_some_value (s : Str) : Option Str :=
  (splitOnChar '"' s).get? 1

/-- Parsing of one optional-partition line: the literal `None`, or a
`Some("…")` field read back by `extract_some_value`.  `none` models a
panic. -/
def parseOptField (s : Str) : Option (Option Str) :=
  if s = "None".toList then some none
  else
    match extract_some_value s with
    | none => none
    | some v => some (some v)

/-- Parsing of the split lines of the persisted record.  The source
indexes `app_config_elements[0]` through `[9]`: an index out of bounds
(fewer than ten lines) panics, which the first wildcard arm models; a
field that fails `extract_some_value` or `parse::<u8>().expect(…)`
likewise panics. -/
def parseConfigLines : List Str → LoadResult
  | e0 :: e1 :: e2 :: e3 :: e4 :: e5 :: e6 :: e7 :: e8 :: e9 :: _ =>
    match parseOptField e1 with
    | none => .panic
    | some up =>
      match parseOptField e2 with
      | none => .panic
      | some bp =>
        match parseOptField e4 with
        | none => .panic
        | some hp =>
          match parseOptField e7 with
          | none => .panic
          | some sp =>
            match parseU8 e8 with
            | none => .panic
            | some cur =>
              match parseU8 e9 with
              | none => .panic
              | some tot =>
                .ok { uefi_install := if e0 = trueStr then true else false
                    , uefi_partition := up
                    , boot_partition := bp
                    , root_partition := e3
                    , home_partition := hp
                    , username := e5
                    , encrypted_partitons := if e6 = trueStr then true else false
                    , swap_partition := sp
                    , current_installation_step := cur
                    , total_installation_steps := tot }
  | _ => .panic

/-- Embedding of `AppConfig::load_config` applied to the state of the
persisted file: `none` means the file is absent (`fs::read` fails and the
`?` operator returns an `Err`), `some content` is its text, which is
split on the newline and parsed field by field. -/
def load_config : Option Str → LoadResult
  | none => .err
  | some content => parseConfigLines (splitOnChar '\n' content)

/-- The observable actions of the step bodies that the verified claims
are about: the UEFI-related prompts and commands, the hostname/hosts
writes, and the user-related commands.  Other prompts and commands of the
step bodies are not recorded in the trace (they are not mentioned by any
claim). -/
inductive InstallEvent where
  | askUefiPartitionName
  | askFormatUefi
  | cmdMkfsFatUefi (dev : Str)
  | cmdMountUefi (dev : Str)
  | cmdUmountUefi (dev : Str)
  | cmdInstallEfibootmgr
  | cmdGrubInstallUefi
  | cmdGrubInstallBios (dev : Str)
  | writeHostnameFile (content : Str)
  | writeHostsFile (content : Str)
  | cmdPasswdRoot
  | cmdPasswdUser (name : Str)
  | cmdUseradd (name : Str)
  | cmdUsermodWheel (name : Str)
deriving DecidableEq, Repr

/-- The operator's answers for one pass over the installation steps.
Each field is the answer to a specific prompt of the source; free-text
answers are already trimmed (Rust `read_line` followed by `trim`, so they
contain no newline).  Yes/no answers are recorded as the boolean the
validated `bool_ask` loop returns. -/
structure RunInputs where
  installMode : Str
  encryptAnswer : Bool
  diskName : Str
  rootName : Str
  hasBoot : Bool
  bootName : Str
  uefiName : Str
  hasHome : Bool
  homeName : Str
  formatRoot : Bool
  formatBoot : Bool
  formatUefi : Bool
  formatHome : Bool
  enableSwap : Bool
  swapName : Str
  mirrorCountry : Str
  cpuBrand : Str
  timeZone : Str
  hostName : Str
  userName : Str
  grubDisk : Str
  alongsideWindows : Bool
  hasNvidia : Bool
  hasIntel : Bool
deriving Repr

/-- The state threaded through the sequencer loop: the `AppConfig` record
together with the single reused `Question` buffer (`answer` is the text
of the most recent prompt answer). -/
structure StepState where
  config : AppConfig
  answer : Str
deriving DecidableEq, Repr

/-- The content written to `/mnt/etc/hosts` by step 19 of the source: a
`format!` template instantiated twice with the current prompt answer. -/
def hostsContent (a : Str) : Str :=
  "127.0.0.1\tlocalhost\n::1 \t\tlocalhost\n127.0.1.1\t".toList
    ++ a ++ ".localdomain\t".toList ++ a

/-- Step 1 (BIOS / UEFI installation mode): `uefi_install` is set when
the selection is the text `2`; the selection text stays in the answer
buffer. -/
def step1 (inp : RunInputs) (s : StepState) : StepState × List InstallEvent :=
  let c := s.config
  let c := if inp.installMode = ['2'] then { c with uefi_install := true } else c
  (⟨c, inp.installMode⟩, [])

/-- Step 2 (encrypted partitions): `encrypted_partitons` is set on an
affirmative answer. -/
def step2 (inp : RunInputs) (s : StepState) : StepState × List InstallEvent :=
  let c := s.config
  let c := if inp.encryptAnswer then { c with encrypted_partitons := true } else c
  (⟨c, boolText inp.encryptAnswer⟩, [])

/-- Step 4 (configuring partitions): asks for a disk name; the state
record is not modified. -/
def step4 (inp : RunInputs) (s : StepState) : StepState × List InstallEvent :=
  (⟨s.config, inp.diskName⟩, [])

/-- Step 5 (getting partition names): records the root name, optionally
the boot and home names, and — only when `uefi_install` is set — prompts
for and records the UEFI partition name. -/
def step5 (inp : RunInputs) (s : StepState) : StepState × List InstallEvent :=
  let c := s.config
  let c1 := { c with root_partition := inp.rootName }
  let c2 := if inp.hasBoot then { c1 with boot_partition := some inp.bootName } else c1
  let c3 := if c.uefi_install then { c2 with uefi_partition := some inp.uefiName } else c2
  let c4 := if inp.hasHome then { c3 with home_partition := some inp.homeName } else c3
  (⟨c4, if inp.hasHome then inp.homeName else ['n']⟩,
   if c.uefi_install then [InstallEvent.askUefiPartitionName] else [])

/-- Step 6 (formatting partitions): the UEFI format prompt and command
run only when a UEFI partition was recorded; the other format branches do
not touch the state record and are not traced. -/
def step6 (inp : RunInputs) (s : StepState) : StepState × List InstallEvent :=
  let c := s.config
  let a1 := boolText inp.formatRoot
  let a2 := if c.boot_partition.isSome then boolText inp.formatBoot else a1
  let a3 := if c.uefi_partition.isSome then boolText inp.formatUefi else a2
  let a4 := if c.home_partition.isSome then boolText inp.formatHome else a3
  (⟨c, a4⟩,
   match c.uefi_partition with
   | some u =>
     InstallEvent.askFormatUefi ::
       (if inp.formatUefi then [InstallEvent.cmdMkfsFatUefi u] else [])
   | none => [])

/-- Step 7 (enabling swap): records the swap partition name when the
operator enables swap. -/
def step7 (inp : RunInputs) (s : StepState) : StepState × List InstallEvent :=
  let c := s.config
  if inp.enableSwap then
    (⟨{ c with swap_partition := some inp.swapName }, inp.swapName⟩, [])
  else (⟨c, ['n']⟩, [])

/-- Step 8 (mounting partitions): the EFI mount runs only when a UEFI
partition was recorded. -/
def step8 (_inp : RunInputs) (s : StepState) : StepState × List InstallEvent :=
  match s.config.uefi_partition with
  | some u => (s, [InstallEvent.cmdMountUefi u])
  | none => (s, [])

/-- Step 9 (updating mirrors): asks for a country. -/
def step9 (inp : RunInputs) (s : StepState) : StepState × List InstallEvent :=
  (⟨s.config, inp.mirrorCountry⟩, [])

/-- Step 11 (base-system install): asks for the CPU brand. -/
def step11 (inp : RunInputs) (s : StepState) : StepState × List InstallEvent :=
  (⟨s.config, inp.cpuBrand⟩, [])

/-- Step 15 (time zone): on the success path the validated time-zone text
stays in the answer buffer. -/
def step15 (inp : RunInputs) (s : StepState) : StepState × List InstallEvent :=
  (⟨s.config, inp.timeZone⟩, [])

/-- Step 18 (host name): asks for the host name and writes it to
`/mnt/etc/hostname`. -/
def step18 (inp : RunInputs) (s : StepState) : StepState × List InstallEvent :=
  (⟨s.config, inp.hostName⟩, [InstallEvent.writeHostnameFile inp.hostName])

/-- Step 19 (hosts configuration): writes `/mnt/etc/hosts` from the
current answer buffer — the step itself asks nothing. -/
def step19 (_inp : RunInputs) (s : StepState) : StepState × List InstallEvent :=
  (s, [InstallEvent.writeHostsFile (hostsContent s.answer)])

/-- Step 20 (root password), success path of the retry loop: the command
runs once; the state record is untouched. -/
def step20 (_inp : RunInputs) (s : StepState) : StepState × List InstallEvent :=
  (s, [InstallEvent.cmdPasswdRoot])

/-- Step 21 (creating user), success path: asks for the username, runs
`useradd` with it, then records it in the state. -/
def step21 (inp : RunInputs) (s : StepState) : StepState × List InstallEvent :=
  (⟨{ s.config with username := inp.userName }, inp.userName⟩,
   [InstallEvent.cmdUseradd inp.userName])

/-- Step 22 (user password), success path: runs `passwd` with the current
answer buffer — the step itself asks nothing before the command. -/
def step22 (_inp : RunInputs) (s : StepState) : StepState × List InstallEvent :=
  (s, [InstallEvent.cmdPasswdUser s.answer])

/-- Step 23 (wheel group): runs `usermod` with the current answer buffer
— the step asks nothing. -/
def step23 (_inp : RunInputs) (s : StepState) : StepState × List InstallEvent :=
  (s, [InstallEvent.cmdUsermodWheel s.answer])

/-- Step 25 (installing grub): the `efibootmgr` install and the UEFI grub
install run exactly when `uefi_install` is set; otherwise the BIOS branch
asks for a disk and installs grub there. -/
def step25 (inp : RunInputs) (s : StepState) : StepState × List InstallEvent :=
  if s.config.uefi_install then
    (s, [InstallEvent.cmdInstallEfibootmgr, InstallEvent.cmdGrubInstallUefi])
  else
    (⟨s.config, inp.grubDisk⟩, [InstallEvent.cmdGrubInstallBios inp.grubDisk])

/-- Step 26 (configuring grub): a yes/no prompt; the state record is not
modified. -/
def step26 (inp : RunInputs) (s : StepState) : StepState × List InstallEvent :=
  (⟨s.config, boolText inp.alongsideWindows⟩, [])

/-- Step 27 (mkinitcpio), success path: two yes/no prompts; the state
record is not modified (the `mkinitcpio.conf` edit itself is modelled by
`mkinitcpioModulesEdit` below). -/
def step27 (inp : RunInputs) (s : StepState) : StepState × List InstallEvent :=
  (⟨s.config, boolText inp.hasIntel⟩, [])

/-- Step 34 (unmounting): the EFI unmount runs only when a UEFI partition
was recorded. -/
def step34 (_inp : RunInputs) (s : StepState) : StepState × List InstallEvent :=
  match s.config.uefi_partition with
  | some u => (s, [InstallEvent.cmdUmountUefi u])
  | none => (s, [])

/-- One step body of the sequencer on its success path (every external
command succeeds; retry loops exit on their first success), dispatched by
step index exactly as the `match` in `main`.  Steps whose bodies neither
touch `AppConfig`, nor ask a question, nor perform a traced action
(3, 10, 12, 13, 14, 16, 17, 24, 28–33) leave the state unchanged.  For a
step index outside 1..34 the source panics; this model is only applied to
indices 1..34. -/
def execStep (inp : RunInputs) (k : Nat) (s : StepState) : StepState × List InstallEvent :=
  if k = 1 then step1 inp s
  else if k = 2 then step2 inp s
  else if k = 4 then step4 inp s
  else if k = 5 then step5 inp s
  else if k = 6 then step6 inp s
  else if k = 7 then step7 inp s
  else if k = 8 then step8 inp s
  else if k = 9 then step9 inp s
  else if k = 11 then step11 inp s
  else if k = 15 then step15 inp s
  else if k = 18 then step18 inp s
  else if k = 19 then step19 inp s
  else if k = 20 then step20 inp s
  else if k = 21 then step21 inp s
  else if k = 22 then step22 inp s
  else if k = 23 then step23 inp s
  else if k = 25 then step25 inp s
  else if k = 26 then step26 inp s
  else if k = 27 then step27 inp s
  else if k = 34 then step34 inp s
  else (s, [])

/-- One iteration of the sequencer loop: execute the body for the current
step index, then increment `current_installation_step` — except after
step 34, where the source breaks out of the loop before the increment. -/
def stepIter (inp : RunInputs) (s : StepState) : StepState × List InstallEvent :=
  let k := s.config.current_installation_step
  let r := execStep inp k s
  (if k = 34 then r.1
   else ⟨{ r.1.config with
            current_installation_step := r.1.config.current_installation_step + 1 },
         r.1.answer⟩,
   r.2)

/-- The fresh state at the top of the loop on a run with no prior record:
a new `AppConfig` for 34 steps, with the affirmative answer to the
"Do you want to continue?" prompt in the buffer. -/
def freshState : StepState := ⟨AppConfig.new 34, ['y']⟩

/-- Running the sequencer loop for `n` iterations from the fresh state,
collecting the event trace; iteration `j` executes step `j + 1`. -/
def runSteps (inp : RunInputs) : Nat → StepState × List InstallEvent
  | 0 => (freshState, [])
  | n + 1 =>
    let r := runSteps inp n
    let r2 := stepIter inp r.1
    (r2.1, r.2 ++ r2.2)

/-- An affirmative trimmed answer accepted by `bool_ask`. -/
def isYes (t : Str) : Bool := t = ['y'] || t = ['Y']

/-- A negative trimmed answer accepted by `bool_ask`. -/
def isNo (t : Str) : Bool := t = ['n'] || t = ['N']

/-- The outcome of the startup resume decision: the in-memory state, the
answer buffer, and the on-disk record. -/
structure ResumeState where
  config : AppConfig
  answer : Str
  disk : Option Str
deriving DecidableEq, Repr

/-- Embedding of the resume branch of `main` (after `load_config`
succeeded): the operator types `typed` at the "continue installation from
step (k/n)?" prompt; an affirmative answer keeps the loaded state, a
negative one calls `AppConfig::reset`.  No file operation is performed in
either branch, so the on-disk record is unchanged. -/
def resumeDecision (cfg : AppConfig) (disk : Option Str) (typed : Str) : ResumeState :=
  if isYes typed then ⟨cfg, typed, disk⟩
  else ⟨cfg.reset, typed, disk⟩

/-- Outcome of one retry-enabled step. -/
inductive StepOutcome where
  | completed
  | aborted
deriving DecidableEq, Repr

/-- The retry loop of the root-password step (step 20): attempt `i` runs
the external command; on failure (`fail i`) the operator is asked whether
to try again (`retry i`) — yes re-enters the loop, no aborts the run.
`none` means the fuel ran out while the loop was still going (the source
loop has no iteration bound). -/
def rootPasswordLoop (fail retry : Nat → Bool) : Nat → Nat → Option StepOutcome
  | 0, _ => none
  | fuel + 1, i =>
    if fail i then
      if retry i then rootPasswordLoop fail retry fuel (i + 1)
      else some .aborted
    else some .completed

/-- How the child process of `run_command` terminated: a normal exit with
a code, a failure to launch the process at all, or termination by a
signal (no exit code). -/
inductive SpawnOutcome where
  | exited (code : Int)
  | launchFailed (msg : Str)
  | killedBySignal
deriving DecidableEq, Repr

/-- Result of `run_command`: success, an `AppError::ExternalError` whose
message carries the numeric exit code, or a Rust panic raised by one of
the two `unwrap` calls. -/
inductive RunCmdResult where
  | ok
  | err (code : Int)
  | panic
deriving DecidableEq, Repr

/-- Embedding of `run_command`: `status().unwrap()` panics when the
process cannot be launched, `code().unwrap()` panics when the child was
killed by a signal; otherwise exit code 0 is `Ok(())` and any other code
an `ExternalError` carrying that code. -/
def run_command_result : SpawnOutcome → RunCmdResult
  | .exited c => if c = 0 then .ok else .err c
  | .launchFailed _ => .panic
  | .killedBySignal => .panic

/-- Result of `find_uuid_in_blkid_command` applied to the captured
`blkid` output: the extracted identifier, or a Rust panic from an
out-of-bounds index. -/
inductive ExtractResult where
  | ok (uuid : Str)
  | panic
deriving DecidableEq, Repr

/-- Trailing carriage-return removal applied by Rust `str::lines` to each
line that is terminated by a newline. -/
def chompCR (l : Str) : Str :=
  if l.getLast? = some '\r' then l.dropLast else l

/-- Embedding of Rust `str::lines`: split on the newline, strip a
carriage return from every terminated line, and drop the empty segment
after a trailing newline. -/
def rustLines (s : Str) : List Str :=
  let parts := splitOnChar '\n' s
  let init := (parts.dropLast).map chompCR
  match parts.getLast? with
  | none => []
  | some last => if last = [] then init else init ++ [last]

/-- Worker for whitespace splitting: `acc` is the reversed current token. -/
def splitWsGo (acc : Str) : Str → List Str
  | [] => [acc.reverse]
  | c :: rest =>
    if c.isWhitespace then acc.reverse :: splitWsGo [] rest
    else splitWsGo (c :: acc) rest

/-- Embedding of Rust `str::split_whitespace`: split on whitespace runs,
yielding no empty tokens. -/
def splitWs (s : Str) : List Str :=
  (splitWsGo [] s).filter (fun t => t ≠ ([] : Str))

/-- Second stage of `find_uuid_in_blkid_command`: split the chosen
whitespace token on `=` and take element 1 (a panic when the token has no
`=`), then `remove(0)` (a panic on an empty value) and `pop` the
surrounding quotes. -/
def uuidFromSeg (seg : Str) : ExtractResult :=
  match (splitOnChar '=' seg).get? 1 with
  | none => .panic
  | some v =>
    if v = [] then .panic
    else .ok ((v.drop 1).dropLast)

/-- First stage of `find_uuid_in_blkid_command` on the selected line:
take whitespace token 1 (`line_segments[1]`; a panic when the line has
fewer than two tokens). -/
def uuidFromLine (line : Str) : ExtractResult :=
  match (splitWs line).get? 1 with
  | none => .panic
  | some seg => uuidFromSeg seg

/-- Embedding of `find_uuid_in_blkid_command`, taking the text of the
device listing as input: filter the lines containing the partition name
and index element 0 (a panic when no line matches), then extract the
identifier from that line. -/
def find_uuid_in_blkid_command (output name : Str) : ExtractResult :=
  match ((rustLines output).filter (fun l => containsB name l)).head? with
  | none => .panic
  | some line => uuidFromLine line

/-- The pair of literal strings the GPU step replaces in
`/mnt/etc/mkinitcpio.conf`, as a function of the two yes/no answers,
embedding the `writing_string` assignments of step 27. -/
def gpuWritingString (hasNvidia hasIntel : Bool) : Option (Str × Str) :=
  if hasNvidia then
    if hasIntel then some ("MODULES=()".toList, "MODULES=(i915 nvidia)".toList)
    else some ("MODULES=()".toList, "MODULES=(nvidia)".toList)
  else
    if hasIntel then some ("MODULES=()".toList, "MODULES=(i915)".toList)
    else none

/-- The effect of step 27 on the content of `/mnt/etc/mkinitcpio.conf`
(the modules line): no edit when neither GPU is present, otherwise the
selected literal replacement. -/
def mkinitcpioModulesEdit (hasNvidia hasIntel : Bool) (content : Str) : Str :=
  match gpuWritingString hasNvidia hasIntel with
  | none => content
  | some ft => replaceAll ft.1 ft.2 content

/-- The ordered replacement chain applied to `/etc/pacman.conf` by step
10 (and to the installed system's `pacman.conf` by step 14). -/
def pacmanPatch (content : Str) : Str :=
  replaceAll "#ParallelDownloads = 5".toList
    "ParallelDownloads = 5\nILoveCandy".toList
    (replaceAll "#VerbosePkgLists".toList "VerbosePkgLists".toList
      (replaceAll "#Color".toList "Color".toList content))

/-- A character whose Rust `{:?}` escaping is itself: printable ASCII
other than the double quote and the backslash. -/
def cleanChar (c : Char) : Bool :=
  decide (32 ≤ c.toNat) && decide (c.toNat ≤ 126) && !(c = '"' : Bool) && !(c = '\\' : Bool)

/-- A string all of whose characters survive Debug-escaping unchanged
(this also excludes the newline, so such a field occupies one line of the
record). -/
def cleanStr (s : Str) : Bool := s.all cleanChar

/-- Cleanliness of an optional field. -/
def cleanOpt : Option Str → Bool
  | none => true
  | some v => cleanStr v

/-- Cleanliness of every string field of the state record. -/
def cleanCfg (c : AppConfig) : Prop :=
  cleanStr c.root_partition = true ∧ cleanStr c.username = true ∧
  cleanOpt c.uefi_partition = true ∧ cleanOpt c.boot_partition = true ∧
  cleanOpt c.home_partition = true ∧ cleanOpt c.swap_partition = true

/-- Cleanliness of the free-text operator answers that are recorded in
the state. -/
def cleanInputs (inp : RunInputs) : Prop :=
  cleanStr inp.rootName = true ∧ cleanStr inp.bootName = true ∧
  cleanStr inp.uefiName = true ∧ cleanStr inp.homeName = true ∧
  cleanStr inp.swapName = true ∧ cleanStr inp.userName = true

/-- A BIOS-mode state: the UEFI flag is unset and no UEFI partition is
recorded. -/
def noUefi (c : AppConfig) : Prop :=
  c.uefi_install = false ∧ c.uefi_partition = none

/-- The trace events belonging to the UEFI-only steps. -/
def uefiEvent : InstallEvent → Bool
  | .askUefiPartitionName => true
  | .askFormatUefi => true
  | .cmdMkfsFatUefi _ => true
  | .cmdMountUefi _ => true
  | .cmdUmountUefi _ => true
  | .cmdInstallEfibootmgr => true
  | .cmdGrubInstallUefi => true
  | _ => false

/-- A sample set of operator answers whose boot-partition name contains a
double quote, used to exhibit the save/load mismatch. -/
def inpQuote : RunInputs where
  installMode := ['1']
  encryptAnswer := false
  diskName := "sda".toList
  rootName := "sda2".toList
  hasBoot := true
  bootName := ['a', '"', 'b']
  uefiName := []
  hasHome := false
  homeName := []
  formatRoot := true
  formatBoot := true
  formatUefi := false
  formatHome := false
  enableSwap := false
  swapName := []
  mirrorCountry := "France".toList
  cpuBrand := "amd".toList
  timeZone := "Europe/Paris".toList
  hostName := "arch".toList
  userName := "amir".toList
  grubDisk := "sda".toList
  alongsideWindows := false
  hasNvidia := false
  hasIntel := false

/-- A sample set of clean operator answers for a UEFI-mode run. -/
def inpDemo : RunInputs where
  installMode := ['2']
  encryptAnswer := true
  diskName := "sda".toList
  rootName := "sda2".toList
  hasBoot := true
  bootName := "sda3".toList
  uefiName := "sda1".toList
  hasHome := true
  homeName := "sda4".toList
  formatRoot := true
  formatBoot := true
  formatUefi := true
  formatHome := true
  enableSwap := true
  swapName := "sda5".toList
  mirrorCountry := "France".toList
  cpuBrand := "intel".toList
  timeZone := "Europe/Paris".toList
  hostName := "arch".toList
  userName := "amir".toList
  grubDisk := "sda".toList
  alongsideWindows := false
  hasNvidia := true
  hasIntel := true

/-- A sample set of clean operator answers for a BIOS-mode run. -/
def inpBios : RunInputs :=
  { inpDemo with installMode := ['1'] }

/-- A sample mid-run state record, as left behind by an aborted run. -/
def cfgSeed : AppConfig where
  uefi_install := true
  uefi_partition := some "sda1".toList
  boot_partition := none
  root_partition := "sda2".toList
  home_partition := none
  username := "amir".toList
  encrypted_partitons := false
  swap_partition := none
  current_installation_step := 19
  total_installation_steps := 34

/-- A sample pacman.conf fragment holding all three patched lines. -/
def pacmanSample : Str :=
  "#Color\n#VerbosePkgLists\n#ParallelDownloads = 5".toList

/-! ### Helper lemmas about the string operations -/

theorem splitOnChar_sep (c : Char) (l : Str) :
    splitOnChar c (c :: l) = [] :: splitOnChar c l := by
  rw [splitOnChar, if_pos rfl]

theorem splitOnChar_no_sep (c : Char) (a : Str) (h : c ∉ a) :
    splitOnChar c a = [a] := by
  induction a with
  | nil => rfl
  | cons x xs ih =>
    have hx : ¬ x = c := by
      rintro rfl
      exact h (List.mem_cons_self x xs)
    rw [splitOnChar, if_neg hx, ih (fun hm => h (List.mem_cons_of_mem x hm))]

theorem splitOnChar_append_sep (c : Char) (a l : Str) (h : c ∉ a) :
    splitOnChar c (a ++ c :: l) = a :: splitOnChar c l := by
  induction a with
  | nil => simp [splitOnChar_sep]
  | cons x xs ih =>
    have hx : ¬ x = c := by
      rintro rfl
      exact h (List.mem_cons_self x xs)
    rw [List.cons_append, splitOnChar, if_neg hx,
        ih (fun hm => h (List.mem_cons_of_mem x hm))]

theorem splitOnChar_joinWith (c : Char) :
    ∀ l : List Str, l ≠ [] → (∀ f ∈ l, c ∉ f) →
      splitOnChar c (joinWith c l) = l
  | [], h, _ => absurd rfl h
  | [f], _, hf => by
    rw [joinWith]
    exact splitOnChar_no_sep c f (hf f (by simp))
  | f :: g :: rest, _, hf => by
    rw [joinWith, splitOnChar_append_sep c f _ (hf f (by simp)),
        splitOnChar_joinWith c (g :: rest) (by simp)
          (fun x hx => hf x (List.mem_cons_of_mem f hx))]

theorem cleanStr_not_mem (s : Str) (h : cleanStr s = true) (c : Char)
    (hc : cleanChar c = false) : c ∉ s := by
  intro hm
  have h2 := List.all_eq_true.mp h c hm
  rw [hc] at h2
  exact Bool.noConfusion h2

theorem cleanStr_cons (x : Char) (xs : Str) (h : cleanStr (x :: xs) = true) :
    cleanChar x = true ∧ cleanStr xs = true := by
  rw [cleanStr, List.all_cons, Bool.and_eq_true] at h
  exact h

theorem escChar_clean (x : Char) (h : cleanChar x = true) : escChar x = [x] := by
  have h1 : x ≠ '"' := by rintro rfl; exact absurd h (by decide)
  have h2 : x ≠ '\\' := by rintro rfl; exact absurd h (by decide)
  have h3 : x ≠ '\n' := by rintro rfl; exact absurd h (by decide)
  have h4 : x ≠ '\t' := by rintro rfl; exact absurd h (by decide)
  have h5 : x ≠ '\r' := by rintro rfl; exact absurd h (by decide)
  simp [escChar, h1, h2, h3, h4, h5]

theorem escapeDebug_clean (s : Str) (h : cleanStr s = true) : escapeDebug s = s := by
  induction s with
  | nil => rfl
  | cons x xs ih =>
    obtain ⟨hx, hxs⟩ := cleanStr_cons x xs h
    show escChar x ++ escapeDebug xs = x :: xs
    rw [escChar_clean x hx, ih hxs]
    rfl

theorem boolStr_roundtrip (b : Bool) :
    (if boolStr b = trueStr then true else false) = b := by
  cases b <;> decide

set_option maxRecDepth 40000 in
theorem parseU8_natToStr : ∀ n < 256, parseU8 (natToStr n) = some n := by decide

set_option maxRecDepth 40000 in
theorem natToStr_no_nl : ∀ n < 256, '\n' ∉ natToStr n := by decide

theorem boolStr_no_nl (b : Bool) : '\n' ∉ boolStr b := by
  cases b <;> decide

theorem cleanStr_no_nl (s : Str) (h : cleanStr s = true) : '\n' ∉ s :=
  cleanStr_not_mem s h '\n' (by decide)

theorem formatOptField_no_nl (o : Option Str) (h : cleanOpt o = true) :
    '\n' ∉ formatOptField o := by
  cases o with
  | none => decide
  | some v =>
    rw [formatOptField, escapeDebug_clean v h]
    intro hm
    rcases List.mem_append.mp hm with hm2 | hm2
    · rcases List.mem_append.mp hm2 with hm3 | hm3
      · exact absurd hm3 (by decide)
      · exact cleanStr_no_nl v h hm3
    · exact absurd hm2 (by decide)

theorem parseOptField_roundtrip (o : Option Str) (h : cleanOpt o = true) :
    parseOptField (formatOptField o) = some o := by
  cases o with
  | none => rfl
  | some v =>
    rw [formatOptField, escapeDebug_clean v h]
    have hne : ¬ ("Some(\"".toList ++ v ++ "\")".toList = "None".toList) := by
      intro heq
      have hlen := congrArg List.length heq
      simp at hlen
    rw [parseOptField, if_neg hne, extract_some_value]
    have hsplit : "Some(\"".toList ++ v ++ "\")".toList
        = "Some(".toList ++ '"' :: (v ++ '"' :: [')']) := by
      simp
    rw [hsplit, splitOnChar_append_sep '"' _ _ (by decide),
        splitOnChar_append_sep '"' v _ (cleanStr_not_mem v h '"' (by decide)),
        splitOnChar_no_sep '"' [')'] (by decide)]
    rfl

theorem saveFields_no_nl (c : AppConfig)
    (h1 : cleanStr c.root_partition = true) (h2 : cleanStr c.username = true)
    (h3 : cleanOpt c.uefi_partition = true) (h4 : cleanOpt c.boot_partition = true)
    (h5 : cleanOpt c.home_partition = true) (h6 : cleanOpt c.swap_partition = true)
    (h7 : c.current_installation_step < 256) (h8 : c.total_installation_steps < 256) :
    ∀ f ∈ saveFields c, '\n' ∉ f := by
  intro f hf
  rw [saveFields] at hf
  simp only [List.mem_cons, List.not_mem_nil, or_false] at hf
  rcases hf with rfl | rfl | rfl | rfl | rfl | rfl | rfl | rfl | rfl | rfl
  · exact boolStr_no_nl _
  · exact formatOptField_no_nl _ h3
  · exact formatOptField_no_nl _ h4
  · exact cleanStr_no_nl _ h1
  · exact formatOptField_no_nl _ h5
  · exact cleanStr_no_nl _ h2
  · exact boolStr_no_nl _
  · exact formatOptField_no_nl _ h6
  · exact natToStr_no_nl _ h7
  · exact natToStr_no_nl _ h8

theorem load_save_roundtrip (c : AppConfig)
    (h1 : cleanStr c.root_partition = true) (h2 : cleanStr c.username = true)
    (h3 : cleanOpt c.uefi_partition = true) (h4 : cleanOpt c.boot_partition = true)
    (h5 : cleanOpt c.home_partition = true) (h6 : cleanOpt c.swap_partition = true)
    (h7 : c.current_installation_step < 256) (h8 : c.total_installation_steps < 256) :
    load_config (some (save_config_string c)) = .ok c := by
  have he : splitOnChar '\n' (save_config_string c) = saveFields c := by
    rw [save_config_string]
    exact splitOnChar_joinWith '\n' (saveFields c) (by rw [saveFields]; simp)
      (saveFields_no_nl c h1 h2 h3 h4 h5 h6 h7 h8)
  show parseConfigLines (splitOnChar '\n' (save_config_string c)) = .ok c
  rw [he, saveFields, parseConfigLines]
  rw [parseOptField_roundtrip _ h3, parseOptField_roundtrip _ h4,
      parseOptField_roundtrip _ h5, parseOptField_roundtrip _ h6,
      parseU8_natToStr _ h7, parseU8_natToStr _ h8]
  rw [boolStr_roundtrip, boolStr_roundtrip]

/-! ### Lemmas about the step bodies and the sequencer loop -/

theorem execStep_total (inp : RunInputs) (k : Nat) (s : StepState) :
    ((execStep inp k s).1).config.total_installation_steps
      = s.config.total_installation_steps := by
  by_cases h1e : k = 1
  · subst h1e
    simp only [execStep]
    norm_num [step1]
    all_goals rcases hg : s.config.uefi_partition with _ | u <;> first | rfl | (split_ifs <;> rfl)
  by_cases h2e : k = 2
  · subst h2e
    simp only [execStep]
    norm_num [step2]
    all_goals rcases hg : s.config.uefi_partition with _ | u <;> first | rfl | (split_ifs <;> rfl)
  by_cases h4e : k = 4
  · subst h4e
    simp only [execStep]
    norm_num [step4]
    all_goals rcases hg : s.config.uefi_partition with _ | u <;> first | rfl | (split_ifs <;> rfl)
  by_cases h5e : k = 5
  · subst h5e
    simp only [execStep]
    norm_num [step5]
    all_goals rcases hg : s.config.uefi_partition with _ | u <;> first | rfl | (split_ifs <;> rfl)
  by_cases h6e : k = 6
  · subst h6e
    simp only [execStep]
    norm_num [step6]
    all_goals rcases hg : s.config.uefi_partition with _ | u <;> first | rfl | (split_ifs <;> rfl)
  by_cases h7e : k = 7
  · subst h7e
    simp only [execStep]
    norm_num [step7]
    all_goals rcases hg : s.config.uefi_partition with _ | u <;> first | rfl | (split_ifs <;> rfl)
  by_cases h8e : k = 8
  · subst h8e
    simp only [execStep]
    norm_num [step8]
    all_goals rcases hg : s.config.uefi_partition with _ | u <;> first | rfl | (split_ifs <;> rfl)
  by_cases h9e : k = 9
  · subst h9e
    simp only [execStep]
    norm_num [step9]
    all_goals rcases hg : s.config.uefi_partition with _ | u <;> first | rfl | (split_ifs <;> rfl)
  by_cases h11e : k = 11
  · subst h11e
    simp only [execStep]
    norm_num [step11]
    all_goals rcases hg : s.config.uefi_partition with _ | u <;> first | rfl | (split_ifs <;> rfl)
  by_cases h15e : k = 15
  · subst h15e
    simp only [execStep]
    norm_num [step15]
    all_goals rcases hg : s.config.uefi_partition with _ | u <;> first | rfl | (split_ifs <;> rfl)
  by_cases h18e : k = 18
  · subst h18e
    simp only [execStep]
    norm_num [step18]
    all_goals rcases hg : s.config.uefi_partition with _ | u <;> first | rfl | (split_ifs <;> rfl)
  by_cases h19e : k = 19
  · subst h19e
    simp only [execStep]
    norm_num [step19]
    all_goals rcases hg : s.config.uefi_partition with _ | u <;> first | rfl | (split_ifs <;> rfl)
  by_cases h20e : k = 20
  · subst h20e
    simp only [execStep]
    norm_num [step20]
    all_goals rcases hg : s.config.uefi_partition with _ | u <;> first | rfl | (split_ifs <;> rfl)
  by_cases h21e : k = 21
  · subst h21e
    simp only [execStep]
    norm_num [step21]
    all_goals rcases hg : s.config.uefi_partition with _ | u <;> first | rfl | (split_ifs <;> rfl)
  by_cases h22e : k = 22
  · subst h22e
    simp only [execStep]
    norm_num [step22]
    all_goals rcases hg : s.config.uefi_partition with _ | u <;> first | rfl | (split_ifs <;> rfl)
  by_cases h23e : k = 23
  · subst h23e
    simp only [execStep]
    norm_num [step23]
    all_goals rcases hg : s.config.uefi_partition with _ | u <;> first | rfl | (split_ifs <;> rfl)
  by_cases h25e : k = 25
  · subst h25e
    simp only [execStep]
    norm_num [step25]
    all_goals rcases hg : s.config.uefi_partition with _ | u <;> first | rfl | (split_ifs <;> rfl)
  by_cases h26e : k = 26
  · subst h26e
    simp only [execStep]
    norm_num [step26]
    all_goals rcases hg : s.config.uefi_partition with _ | u <;> first | rfl | (split_ifs <;> rfl)
  by_cases h27e : k = 27
  · subst h27e
    simp only [execStep]
    norm_num [step27]
    all_goals rcases hg : s.config.uefi_partition with _ | u <;> first | rfl | (split_ifs <;> rfl)
  by_cases h34e : k = 34
  · subst h34e
    simp only [execStep]
    norm_num [step34]
    all_goals rcases hg : s.config.uefi_partition with _ | u <;> first | rfl | (split_ifs <;> rfl)
  simp [execStep, h1e, h2e, h4e, h5e, h6e, h7e, h8e, h9e, h11e, h15e, h18e, h19e, h20e, h21e, h22e, h23e, h25e, h26e, h27e, h34e]

theorem execStep_current (inp : RunInputs) (k : Nat) (s : StepState) :
    ((execStep inp k s).1).config.current_installation_step
      = s.config.current_installation_step := by
  by_cases h1e : k = 1
  · subst h1e
    simp only [execStep]
    norm_num [step1]
    all_goals rcases hg : s.config.uefi_partition with _ | u <;> first | rfl | (split_ifs <;> rfl)
  by_cases h2e : k = 2
  · subst h2e
    simp only [execStep]
    norm_num [step2]
    all_goals rcases hg : s.config.uefi_partition with _ | u <;> first | rfl | (split_ifs <;> rfl)
  by_cases h4e : k = 4
  · subst h4e
    simp only [execStep]
    norm_num [step4]
    all_goals rcases hg : s.config.uefi_partition with _ | u <;> first | rfl | (split_ifs <;> rfl)
  by_cases h5e : k = 5
  · subst h5e
    simp only [execStep]
    norm_num [step5]
    all_goals rcases hg : s.config.uefi_partition with _ | u <;> first | rfl | (split_ifs <;> rfl)
  by_cases h6e : k = 6
  · subst h6e
    simp only [execStep]
    norm_num [step6]
    all_goals rcases hg : s.config.uefi_partition with _ | u <;> first | rfl | (split_ifs <;> rfl)
  by_cases h7e : k = 7
  · subst h7e
    simp only [execStep]
    norm_num [step7]
    all_goals rcases hg : s.config.uefi_partition with _ | u <;> first | rfl | (split_ifs <;> rfl)
  by_cases h8e : k = 8
  · subst h8e
    simp only [execStep]
    norm_num [step8]
    all_goals rcases hg : s.config.uefi_partition with _ | u <;> first | rfl | (split_ifs <;> rfl)
  by_cases h9e : k = 9
  · subst h9e
    simp only [execStep]
    norm_num [step9]
    all_goals rcases hg : s.config.uefi_partition with _ | u <;> first | rfl | (split_ifs <;> rfl)
  by_cases h11e : k = 11
  · subst h11e
    simp only [execStep]
    norm_num [step11]
    all_goals rcases hg : s.config.uefi_partition with _ | u <;> first | rfl | (split_ifs <;> rfl)
  by_cases h15e : k = 15
  · subst h15e
    simp only [execStep]
    norm_num [step15]
    all_goals rcases hg : s.config.uefi_partition with _ | u <;> first | rfl | (split_ifs <;> rfl)
  by_cases h18e : k = 18
  · subst h18e
    simp only [execStep]
    norm_num [step18]
    all_goals rcases hg : s.config.uefi_partition with _ | u <;> first | rfl | (split_ifs <;> rfl)
  by_cases h19e : k = 19
  · subst h19e
    simp only [execStep]
    norm_num [step19]
    all_goals rcases hg : s.config.uefi_partition with _ | u <;> first | rfl | (split_ifs <;> rfl)
  by_cases h20e : k = 20
  · subst h20e
    simp only [execStep]
    norm_num [step20]
    all_goals rcases hg : s.config.uefi_partition with _ | u <;> first | rfl | (split_ifs <;> rfl)
  by_cases h21e : k = 21
  · subst h21e
    simp only [execStep]
    norm_num [step21]
    all_goals rcases hg : s.config.uefi_partition with _ | u <;> first | rfl | (split_ifs <;> rfl)
  by_cases h22e : k = 22
  · subst h22e
    simp only [execStep]
    norm_num [step22]
    all_goals rcases hg : s.config.uefi_partition with _ | u <;> first | rfl | (split_ifs <;> rfl)
  by_cases h23e : k = 23
  · subst h23e
    simp only [execStep]
    norm_num [step23]
    all_goals rcases hg : s.config.uefi_partition with _ | u <;> first | rfl | (split_ifs <;> rfl)
  by_cases h25e : k = 25
  · subst h25e
    simp only [execStep]
    norm_num [step25]
    all_goals rcases hg : s.config.uefi_partition with _ | u <;> first | rfl | (split_ifs <;> rfl)
  by_cases h26e : k = 26
  · subst h26e
    simp only [execStep]
    norm_num [step26]
    all_goals rcases hg : s.config.uefi_partition with _ | u <;> first | rfl | (split_ifs <;> rfl)
  by_cases h27e : k = 27
  · subst h27e
    simp only [execStep]
    norm_num [step27]
    all_goals rcases hg : s.config.uefi_partition with _ | u <;> first | rfl | (split_ifs <;> rfl)
  by_cases h34e : k = 34
  · subst h34e
    simp only [execStep]
    norm_num [step34]
    all_goals rcases hg : s.config.uefi_partition with _ | u <;> first | rfl | (split_ifs <;> rfl)
  simp [execStep, h1e, h2e, h4e, h5e, h6e, h7e, h8e, h9e, h11e, h15e, h18e, h19e, h20e, h21e, h22e, h23e, h25e, h26e, h27e, h34e]

theorem execStep_clean (inp : RunInputs) (k : Nat) (s : StepState)
    (hi : cleanInputs inp) (hc : cleanCfg s.config) :
    cleanCfg ((execStep inp k s).1).config := by
  obtain ⟨hi1, hi2, hi3, hi4, hi5, hi6⟩ := hi
  obtain ⟨hc1, hc2, hc3, hc4, hc5, hc6⟩ := hc
  by_cases h1e : k = 1
  · subst h1e
    simp only [execStep]
    norm_num [step1, cleanCfg]
    all_goals rcases hg : s.config.uefi_partition with _ | u
    all_goals try split_ifs
    all_goals simp_all [cleanOpt]
  by_cases h2e : k = 2
  · subst h2e
    simp only [execStep]
    norm_num [step2, cleanCfg]
    all_goals rcases hg : s.config.uefi_partition with _ | u
    all_goals try split_ifs
    all_goals simp_all [cleanOpt]
  by_cases h4e : k = 4
  · subst h4e
    simp only [execStep]
    norm_num [step4, cleanCfg]
    all_goals rcases hg : s.config.uefi_partition with _ | u
    all_goals try split_ifs
    all_goals simp_all [cleanOpt]
  by_cases h5e : k = 5
  · subst h5e
    simp only [execStep]
    norm_num [step5, cleanCfg]
    all_goals rcases hg : s.config.uefi_partition with _ | u
    all_goals try split_ifs
    all_goals simp_all [cleanOpt]
  by_cases h6e : k = 6
  · subst h6e
    simp only [execStep]
    norm_num [step6, cleanCfg]
    all_goals rcases hg : s.config.uefi_partition with _ | u
    all_goals try split_ifs
    all_goals simp_all [cleanOpt]
  by_cases h7e : k = 7
  · subst h7e
    simp only [execStep]
    norm_num [step7, cleanCfg]
    all_goals rcases hg : s.config.uefi_partition with _ | u
    all_goals try split_ifs
    all_goals simp_all [cleanOpt]
  by_cases h8e : k = 8
  · subst h8e
    simp only [execStep]
    norm_num [step8, cleanCfg]
    all_goals rcases hg : s.config.uefi_partition with _ | u
    all_goals try split_ifs
    all_goals simp_all [cleanOpt]
  by_cases h9e : k = 9
  · subst h9e
    simp only [execStep]
    norm_num [step9, cleanCfg]
    all_goals rcases hg : s.config.uefi_partition with _ | u
    all_goals try split_ifs
    all_goals simp_all [cleanOpt]
  by_cases h11e : k = 11
  · subst h11e
    simp only [execStep]
    norm_num [step11, cleanCfg]
    all_goals rcases hg : s.config.uefi_partition with _ | u
    all_goals try split_ifs
    all_goals simp_all [cleanOpt]
  by_cases h15e : k = 15
  · subst h15e
    simp only [execStep]
    norm_num [step15, cleanCfg]
    all_goals rcases hg : s.config.uefi_partition with _ | u
    all_goals try split_ifs
    all_goals simp_all [cleanOpt]
  by_cases h18e : k = 18
  · subst h18e
    simp only [execStep]
    norm_num [step18, cleanCfg]
    all_goals rcases hg : s.config.uefi_partition with _ | u
    all_goals try split_ifs
    all_goals simp_all [cleanOpt]
  by_cases h19e : k = 19
  · subst h19e
    simp only [execStep]
    norm_num [step19, cleanCfg]
    all_goals rcases hg : s.config.uefi_partition with _ | u
    all_goals try split_ifs
    all_goals simp_all [cleanOpt]
  by_cases h20e : k = 20
  · subst h20e
    simp only [execStep]
    norm_num [step20, cleanCfg]
    all_goals rcases hg : s.config.uefi_partition with _ | u
    all_goals try split_ifs
    all_goals simp_all [cleanOpt]
  by_cases h21e : k = 21
  · subst h21e
    simp only [execStep]
    norm_num [step21, cleanCfg]
    all_goals rcases hg : s.config.uefi_partition with _ | u
    all_goals try split_ifs
    all_goals simp_all [cleanOpt]
  by_cases h22e : k = 22
  · subst h22e
    simp only [execStep]
    norm_num [step22, cleanCfg]
    all_goals rcases hg : s.config.uefi_partition with _ | u
    all_goals try split_ifs
    all_goals simp_all [cleanOpt]
  by_cases h23e : k = 23
  · subst h23e
    simp only [execStep]
    norm_num [step23, cleanCfg]
    all_goals rcases hg : s.config.uefi_partition with _ | u
    all_goals try split_ifs
    all_goals simp_all [cleanOpt]
  by_cases h25e : k = 25
  · subst h25e
    simp only [execStep]
    norm_num [step25, cleanCfg]
    all_goals rcases hg : s.config.uefi_partition with _ | u
    all_goals try split_ifs
    all_goals simp_all [cleanOpt]
  by_cases h26e : k = 26
  · subst h26e
    simp only [execStep]
    norm_num [step26, cleanCfg]
    all_goals rcases hg : s.config.uefi_partition with _ | u
    all_goals try split_ifs
    all_goals simp_all [cleanOpt]
  by_cases h27e : k = 27
  · subst h27e
    simp only [execStep]
    norm_num [step27, cleanCfg]
    all_goals rcases hg : s.config.uefi_partition with _ | u
    all_goals try split_ifs
    all_goals simp_all [cleanOpt]
  by_cases h34e : k = 34
  · subst h34e
    simp only [execStep]
    norm_num [step34, cleanCfg]
    all_goals rcases hg : s.config.uefi_partition with _ | u
    all_goals try split_ifs
    all_goals simp_all [cleanOpt]
  simp only [execStep, if_neg h1e, h2e, h4e, h5e, h6e, h7e, h8e, h9e, h11e, h15e, h18e, h19e, h20e, h21e, h22e, h23e, h25e, h26e, h27e, h34e]
  exact ⟨hc1, hc2, hc3, hc4, hc5, hc6⟩

theorem execStep_noUefi (inp : RunInputs) (k : Nat) (s : StepState)
    (hm : inp.installMode ≠ ['2'])
    (hu1 : s.config.uefi_install = false) (hu2 : s.config.uefi_partition = none) :
    ((execStep inp k s).1).config.uefi_install = false ∧
    ((execStep inp k s).1).config.uefi_partition = none ∧
    ∀ e ∈ (execStep inp k s).2, uefiEvent e = false := by
  by_cases h1e : k = 1
  · subst h1e
    simp only [execStep]
    norm_num [step1, uefiEvent, hm, hu1, hu2]
    all_goals try split_ifs
    all_goals simp_all [uefiEvent]
  by_cases h2e : k = 2
  · subst h2e
    simp only [execStep]
    norm_num [step2, uefiEvent, hm, hu1, hu2]
    all_goals try split_ifs
    all_goals simp_all [uefiEvent]
  by_cases h4e : k = 4
  · subst h4e
    simp only [execStep]
    norm_num [step4, uefiEvent, hm, hu1, hu2]
    all_goals try split_ifs
    all_goals simp_all [uefiEvent]
  by_cases h5e : k = 5
  · subst h5e
    simp only [execStep]
    norm_num [step5, uefiEvent, hm, hu1, hu2]
    all_goals try split_ifs
    all_goals simp_all [uefiEvent]
  by_cases h6e : k = 6
  · subst h6e
    simp only [execStep]
    norm_num [step6, uefiEvent, hm, hu1, hu2]
    all_goals try split_ifs
    all_goals simp_all [uefiEvent]
  by_cases h7e : k = 7
  · subst h7e
    simp only [execStep]
    norm_num [step7, uefiEvent, hm, hu1, hu2]
    all_goals try split_ifs
    all_goals simp_all [uefiEvent]
  by_cases h8e : k = 8
  · subst h8e
    simp only [execStep]
    norm_num [step8, uefiEvent, hm, hu1, hu2]
    all_goals try split_ifs
    all_goals simp_all [uefiEvent]
  by_cases h9e : k = 9
  · subst h9e
    simp only [execStep]
    norm_num [step9, uefiEvent, hm, hu1, hu2]
    all_goals try split_ifs
    all_goals simp_all [uefiEvent]
  by_cases h11e : k = 11
  · subst h11e
    simp only [execStep]
    norm_num [step11, uefiEvent, hm, hu1, hu2]
    all_goals try split_ifs
    all_goals simp_all [uefiEvent]
  by_cases h15e : k = 15
  · subst h15e
    simp only [execStep]
    norm_num [step15, uefiEvent, hm, hu1, hu2]
    all_goals try split_ifs
    all_goals simp_all [uefiEvent]
  by_cases h18e : k = 18
  · subst h18e
    simp only [execStep]
    norm_num [step18, uefiEvent, hm, hu1, hu2]
    all_goals try split_ifs
    all_goals simp_all [uefiEvent]
  by_cases h19e : k = 19
  · subst h19e
    simp only [execStep]
    norm_num [step19, uefiEvent, hm, hu1, hu2]
    all_goals try split_ifs
    all_goals simp_all [uefiEvent]
  by_cases h20e : k = 20
  · subst h20e
    simp only [execStep]
    norm_num [step20, uefiEvent, hm, hu1, hu2]
    all_goals try split_ifs
    all_goals simp_all [uefiEvent]
  by_cases h21e : k = 21
  · subst h21e
    simp only [execStep]
    norm_num [step21, uefiEvent, hm, hu1, hu2]
    all_goals try split_ifs
    all_goals simp_all [uefiEvent]
  by_cases h22e : k = 22
  · subst h22e
    simp only [execStep]
    norm_num [step22, uefiEvent, hm, hu1, hu2]
    all_goals try split_ifs
    all_goals simp_all [uefiEvent]
  by_cases h23e : k = 23
  · subst h23e
    simp only [execStep]
    norm_num [step23, uefiEvent, hm, hu1, hu2]
    all_goals try split_ifs
    all_goals simp_all [uefiEvent]
  by_cases h25e : k = 25
  · subst h25e
    simp only [execStep]
    norm_num [step25, uefiEvent, hm, hu1, hu2]
    all_goals try split_ifs
    all_goals simp_all [uefiEvent]
  by_cases h26e : k = 26
  · subst h26e
    simp only [execStep]
    norm_num [step26, uefiEvent, hm, hu1, hu2]
    all_goals try split_ifs
    all_goals simp_all [uefiEvent]
  by_cases h27e : k = 27
  · subst h27e
    simp only [execStep]
    norm_num [step27, uefiEvent, hm, hu1, hu2]
    all_goals try split_ifs
    all_goals simp_all [uefiEvent]
  by_cases h34e : k = 34
  · subst h34e
    simp only [execStep]
    norm_num [step34, uefiEvent, hm, hu1, hu2]
    all_goals try split_ifs
    all_goals simp_all [uefiEvent]
  simp only [execStep, if_neg h1e, h2e, h4e, h5e, h6e, h7e, h8e, h9e, h11e, h15e, h18e, h19e, h20e, h21e, h22e, h23e, h25e, h26e, h27e, h34e]
  exact ⟨hu1, hu2, by simp⟩

theorem execStep_uefi_true (inp : RunInputs) (k : Nat) (s : StepState)
    (h : s.config.uefi_install = true) :
    ((execStep inp k s).1).config.uefi_install = true := by
  by_cases h1e : k = 1
  · subst h1e
    simp only [execStep]
    norm_num [step1, h]
    all_goals rcases hg : s.config.uefi_partition with _ | u
    all_goals try split_ifs
    all_goals simp_all
  by_cases h2e : k = 2
  · subst h2e
    simp only [execStep]
    norm_num [step2, h]
    all_goals rcases hg : s.config.uefi_partition with _ | u
    all_goals try split_ifs
    all_goals simp_all
  by_cases h4e : k = 4
  · subst h4e
    simp only [execStep]
    norm_num [step4, h]
    all_goals rcases hg : s.config.uefi_partition with _ | u
    all_goals try split_ifs
    all_goals simp_all
  by_cases h5e : k = 5
  · subst h5e
    simp only [execStep]
    norm_num [step5, h]
    all_goals rcases hg : s.config.uefi_partition with _ | u
    all_goals try split_ifs
    all_goals simp_all
  by_cases h6e : k = 6
  · subst h6e
    simp only [execStep]
    norm_num [step6, h]
    all_goals rcases hg : s.config.uefi_partition with _ | u
    all_goals try split_ifs
    all_goals simp_all
  by_cases h7e : k = 7
  · subst h7e
    simp only [execStep]
    norm_num [step7, h]
    all_goals rcases hg : s.config.uefi_partition with _ | u
    all_goals try split_ifs
    all_goals simp_all
  by_cases h8e : k = 8
  · subst h8e
    simp only [execStep]
    norm_num [step8, h]
    all_goals rcases hg : s.config.uefi_partition with _ | u
    all_goals try split_ifs
    all_goals simp_all
  by_cases h9e : k = 9
  · subst h9e
    simp only [execStep]
    norm_num [step9, h]
    all_goals rcases hg : s.config.uefi_partition with _ | u
    all_goals try split_ifs
    all_goals simp_all
  by_cases h11e : k = 11
  · subst h11e
    simp only [execStep]
    norm_num [step11, h]
    all_goals rcases hg : s.config.uefi_partition with _ | u
    all_goals try split_ifs
    all_goals simp_all
  by_cases h15e : k = 15
  · subst h15e
    simp only [execStep]
    norm_num [step15, h]
    all_goals rcases hg : s.config.uefi_partition with _ | u
    all_goals try split_ifs
    all_goals simp_all
  by_cases h18e : k = 18
  · subst h18e
    simp only [execStep]
    norm_num [step18, h]
    all_goals rcases hg : s.config.uefi_partition with _ | u
    all_goals try split_ifs
    all_goals simp_all
  by_cases h19e : k = 19
  · subst h19e
    simp only [execStep]
    norm_num [step19, h]
    all_goals rcases hg : s.config.uefi_partition with _ | u
    all_goals try split_ifs
    all_goals simp_all
  by_cases h20e : k = 20
  · subst h20e
    simp only [execStep]
    norm_num [step20, h]
    all_goals rcases hg : s.config.uefi_partition with _ | u
    all_goals try split_ifs
    all_goals simp_all
  by_cases h21e : k = 21
  · subst h21e
    simp only [execStep]
    norm_num [step21, h]
    all_goals rcases hg : s.config.uefi_partition with _ | u
    all_goals try split_ifs
    all_goals simp_all
  by_cases h22e : k = 22
  · subst h22e
    simp only [execStep]
    norm_num [step22, h]
    all_goals rcases hg : s.config.uefi_partition with _ | u
    all_goals try split_ifs
    all_goals simp_all
  by_cases h23e : k = 23
  · subst h23e
    simp only [execStep]
    norm_num [step23, h]
    all_goals rcases hg : s.config.uefi_partition with _ | u
    all_goals try split_ifs
    all_goals simp_all
  by_cases h25e : k = 25
  · subst h25e
    simp only [execStep]
    norm_num [step25, h]
    all_goals rcases hg : s.config.uefi_partition with _ | u
    all_goals try split_ifs
    all_goals simp_all
  by_cases h26e : k = 26
  · subst h26e
    simp only [execStep]
    norm_num [step26, h]
    all_goals rcases hg : s.config.uefi_partition with _ | u
    all_goals try split_ifs
    all_goals simp_all
  by_cases h27e : k = 27
  · subst h27e
    simp only [execStep]
    norm_num [step27, h]
    all_goals rcases hg : s.config.uefi_partition with _ | u
    all_goals try split_ifs
    all_goals simp_all
  by_cases h34e : k = 34
  · subst h34e
    simp only [execStep]
    norm_num [step34, h]
    all_goals rcases hg : s.config.uefi_partition with _ | u
    all_goals try split_ifs
    all_goals simp_all
  simp only [execStep, if_neg h1e, h2e, h4e, h5e, h6e, h7e, h8e, h9e, h11e, h15e, h18e, h19e, h20e, h21e, h22e, h23e, h25e, h26e, h27e, h34e]
  exact h

theorem runSteps_total (inp : RunInputs) (n : Nat) :
    ((runSteps inp n).1).config.total_installation_steps = 34 := by
  induction n with
  | zero => rfl
  | succ n ih =>
    simp only [runSteps, stepIter]
    split
    · rw [execStep_total]; exact ih
    · simp only [execStep_total]
      exact ih

theorem runSteps_current (inp : RunInputs) (n : Nat) (hn : n ≤ 33) :
    ((runSteps inp n).1).config.current_installation_step = n + 1 := by
  induction n with
  | zero => rfl
  | succ n ih =>
    have ihc := ih (by omega)
    simp only [runSteps, stepIter]
    rw [if_neg (by rw [ihc]; omega)]
    simp [execStep_current, ihc]

theorem runSteps_clean (inp : RunInputs) (n : Nat) (hi : cleanInputs inp) :
    cleanCfg ((runSteps inp n).1).config := by
  induction n with
  | zero => exact ⟨rfl, rfl, rfl, rfl, rfl, rfl⟩
  | succ n ih =>
    have h2 := execStep_clean inp ((runSteps inp n).1).config.current_installation_step
      (runSteps inp n).1 hi ih
    simp only [runSteps, stepIter]
    split
    · exact h2
    · exact h2

theorem runSteps_noUefi (inp : RunInputs) (n : Nat) (hm : inp.installMode ≠ ['2']) :
    ((runSteps inp n).1).config.uefi_install = false ∧
    ((runSteps inp n).1).config.uefi_partition = none ∧
    ∀ e ∈ (runSteps inp n).2, uefiEvent e = false := by
  induction n with
  | zero => exact ⟨rfl, rfl, by simp [runSteps]⟩
  | succ n ih =>
    obtain ⟨ih1, ih2, ih3⟩ := ih
    have h2 := execStep_noUefi inp ((runSteps inp n).1).config.current_installation_step
      (runSteps inp n).1 hm ih1 ih2
    refine ⟨?_, ?_, ?_⟩
    · simp only [runSteps, stepIter]
      split
      · exact h2.1
      · exact h2.1
    · simp only [runSteps, stepIter]
      split
      · exact h2.2.1
      · exact h2.2.1
    · simp only [runSteps, stepIter]
      intro e he
      rcases List.mem_append.mp he with h | h
      · exact ih3 e h
      · exact h2.2.2 e h

theorem runSteps_uefi_install (inp : RunInputs) (hm : inp.installMode = ['2']) :
    ∀ n, 1 ≤ n → ((runSteps inp n).1).config.uefi_install = true := by
  intro n
  induction n with
  | zero => intro h; omega
  | succ n ih =>
    intro _
    rcases Nat.eq_zero_or_pos n with rfl | hp
    · simp [runSteps, stepIter, freshState, AppConfig.new, execStep, step1, hm]
    · have ihh := ih hp
      simp only [runSteps, stepIter]
      split
      · exact execStep_uefi_true inp _ _ ihh
      · exact execStep_uefi_true inp _ _ ihh

theorem runSteps_trace_mono (inp : RunInputs) (e : InstallEvent) :
    ∀ {n m : Nat}, n ≤ m → e ∈ (runSteps inp n).2 → e ∈ (runSteps inp m).2 := by
  intro n m h he
  induction m with
  | zero =>
    have h0 : n = 0 := Nat.le_zero.mp h
    subst h0; exact he
  | succ m ih =>
    rcases Nat.eq_or_lt_of_le h with rfl | hlt
    · exact he
    · have h2 := ih (Nat.lt_succ_iff.mp hlt)
      simp only [runSteps]
      exact List.mem_append_left _ h2

theorem execStep5_events (inp : RunInputs) (s : StepState)
    (h : s.config.uefi_install = true) :
    InstallEvent.askUefiPartitionName ∈ (execStep inp 5 s).2 ∧
    ((execStep inp 5 s).1).config.uefi_partition = some inp.uefiName := by
  simp only [execStep]
  norm_num [step5, h]
  all_goals try split_ifs
  all_goals simp_all

theorem execStep25_events (inp : RunInputs) (s : StepState)
    (h : s.config.uefi_install = true) :
    InstallEvent.cmdInstallEfibootmgr ∈ (execStep inp 25 s).2 := by
  simp [execStep, step25, h]

/-! ### Lemmas about substring search and replacement -/

theorem isPrefixB_self_append (pat l : Str) : isPrefixB pat (pat ++ l) = true := by
  induction pat with
  | nil => rfl
  | cons a as ih => simp [isPrefixB, ih]

theorem isPrefixB_append_of (pat : Str) :
    ∀ x y : Str, isPrefixB pat x = true → isPrefixB pat (x ++ y) = true := by
  induction pat with
  | nil => intro x y _; rfl
  | cons a as ih =>
    intro x y h
    cases x with
    | nil => exact absurd h (by simp [isPrefixB])
    | cons b bs =>
      rw [isPrefixB, Bool.and_eq_true, decide_eq_true_eq] at h
      rw [List.cons_append, isPrefixB, Bool.and_eq_true, decide_eq_true_eq]
      exact ⟨h.1, ih bs y h.2⟩

theorem isPrefixB_take (pat : Str) :
    ∀ x y : Str, isPrefixB pat (x ++ y) = true → pat.length ≤ x.length →
      isPrefixB pat x = true := by
  induction pat with
  | nil => intro x y _ _; rfl
  | cons a as ih =>
    intro x y h hlen
    cases x with
    | nil => simp at hlen
    | cons b bs =>
      rw [List.cons_append, isPrefixB, Bool.and_eq_true, decide_eq_true_eq] at h
      rw [isPrefixB, Bool.and_eq_true, decide_eq_true_eq]
      refine ⟨h.1, ih bs y h.2 ?_⟩
      simpa using Nat.le_of_succ_le_succ (by simpa using hlen)

theorem containsB_nil_pat (s : Str) : containsB [] s = true := by
  cases s <;> rfl

theorem containsB_of_isPrefixB (pat s : Str) (h : isPrefixB pat s = true) :
    containsB pat s = true := by
  cases s with
  | nil => rw [containsB]; exact h
  | cons c rest => rw [containsB]; simp [h]

theorem containsB_append_left (pat : Str) :
    ∀ a b : Str, containsB pat a = true → containsB pat (a ++ b) = true := by
  intro a
  induction a with
  | nil =>
    intro b h
    rw [containsB] at h
    cases pat with
    | nil => exact containsB_nil_pat b
    | cons p ps => exact absurd h (by simp [isPrefixB])
  | cons x xs ih =>
    intro b h
    rw [containsB, Bool.or_eq_true] at h
    rw [List.cons_append, containsB, Bool.or_eq_true]
    rcases h with h1 | h2
    · exact Or.inl (by rw [← List.cons_append]; exact isPrefixB_append_of pat (x :: xs) b h1)
    · exact Or.inr (ih b h2)

theorem containsB_cons_false (pat : Str) (x : Char) (xs : Str)
    (h : containsB pat (x :: xs) = false) :
    isPrefixB pat (x :: xs) = false ∧ containsB pat xs = false := by
  rw [containsB, Bool.or_eq_false_iff] at h
  exact h

theorem replaceAllAux_fuel (pat rep : Str) (f1 : Nat) :
    ∀ f2 s, s.length ≤ f1 → s.length ≤ f2 →
      replaceAllAux pat rep f1 s = replaceAllAux pat rep f2 s := by
  induction f1 with
  | zero =>
    intro f2 s h1 _
    have hs : s = [] := List.eq_nil_of_length_eq_zero (Nat.le_zero.mp h1)
    subst hs
    cases f2 <;> rfl
  | succ g ih =>
    intro f2 s h1 h2
    cases s with
    | nil => cases f2 <;> rfl
    | cons c rest =>
      cases f2 with
      | zero => simp at h2
      | succ g2 =>
        simp only [replaceAllAux]
        have hr : rest.length ≤ g := by simpa using Nat.le_of_succ_le_succ (by simpa using h1)
        have hr2 : rest.length ≤ g2 := by simpa using Nat.le_of_succ_le_succ (by simpa using h2)
        split_ifs
        · rw [ih g2 (List.drop (pat.length - 1) rest)
            (le_trans (by simpa using List.length_drop_le (pat.length - 1) rest) hr)
            (le_trans (by simpa using List.length_drop_le (pat.length - 1) rest) hr2)]
        · rw [ih g2 rest hr hr2]

theorem replaceAllAux_no_occ (pat rep : Str) (fuel : Nat) :
    ∀ s, containsB pat s = false → replaceAllAux pat rep fuel s = s := by
  induction fuel with
  | zero => intro s _; cases s <;> rfl
  | succ g ih =>
    intro s h
    cases s with
    | nil => rfl
    | cons c rest =>
      obtain ⟨hp, hr⟩ := containsB_cons_false pat c rest h
      simp only [replaceAllAux]
      rw [if_neg (by rintro ⟨_, hpfx⟩; rw [hp] at hpfx; exact Bool.noConfusion hpfx)]
      rw [ih rest hr]

theorem replaceAll_no_occ (pat rep s : Str) (h : containsB pat s = false) :
    replaceAll pat rep s = s :=
  replaceAllAux_no_occ pat rep s.length s h

theorem replaceAllAux_boundary (pat rep : Str) (hp : pat ≠ []) :
    ∀ pre fuel post, (pre ++ pat ++ post).length ≤ fuel →
      containsB pat (pre ++ pat.dropLast) = false →
      replaceAllAux pat rep fuel (pre ++ pat ++ post)
        = pre ++ rep ++ replaceAllAux pat rep post.length post := by
  intro pre
  induction pre with
  | nil =>
    intro fuel post hlen hcon
    cases pat with
    | nil => simp [containsB_nil_pat] at hcon
    | cons p ps =>
      cases fuel with
      | zero => simp at hlen
      | succ g =>
        rw [List.nil_append, List.cons_append]
        simp only [replaceAllAux]
        rw [if_pos ⟨List.cons_ne_nil p ps,
          by rw [← List.cons_append]; exact isPrefixB_self_append (p :: ps) post⟩]
        have hdrop : List.drop ((p :: ps).length - 1) (ps ++ post) = post := by
          simp [List.drop_left]
        rw [hdrop]
        rw [replaceAllAux_fuel (p :: ps) rep g post.length post (by simp at hlen; omega)
          (le_refl _)]
        simp
  | cons c pre2 ih =>
    intro fuel post hlen hcon
    cases fuel with
    | zero => simp at hlen
    | succ g =>
      simp only [List.cons_append]
      simp only [replaceAllAux]
      have hcon2 : containsB pat (pre2 ++ pat.dropLast) = false :=
        (containsB_cons_false pat c (pre2 ++ pat.dropLast) hcon).2
      rw [if_neg ?ncond]
      case ncond =>
        rintro ⟨_, hpfx⟩
        have hsplit : c :: (pre2 ++ pat ++ post)
            = (c :: (pre2 ++ pat.dropLast)) ++ (pat.getLast hp :: post) := by
          conv_lhs => rw [← List.dropLast_append_getLast hp]
          simp
        rw [hsplit] at hpfx
        have hlen2 : pat.length ≤ (c :: (pre2 ++ pat.dropLast)).length := by
          have hpos : 0 < pat.length := List.length_pos.mpr hp
          simp [List.length_dropLast]
          omega
        have hpre := isPrefixB_take pat _ _ hpfx hlen2
        have hc2 := containsB_of_isPrefixB _ _ hpre
        have hcon3 : containsB pat (c :: (pre2 ++ pat.dropLast)) = false := hcon
        rw [hcon3] at hc2
        exact Bool.noConfusion hc2
      rw [ih g post (by simp at hlen ⊢; omega) hcon2]

theorem replaceAll_boundary (pat rep pre post : Str) (hp : pat ≠ [])
    (h : containsB pat (pre ++ pat.dropLast) = false) :
    replaceAll pat rep (pre ++ pat ++ post) = pre ++ rep ++ replaceAll pat rep post :=
  replaceAllAux_boundary pat rep hp pre (pre ++ pat ++ post).length post (le_refl _) h

theorem splitWsGo_seg (a : Str) (h : ∀ c ∈ a, c.isWhitespace = false) :
    ∀ acc rest, splitWsGo acc (a ++ rest) = splitWsGo (a.reverse ++ acc) rest := by
  induction a with
  | nil => intro acc rest; simp
  | cons x xs ih =>
    intro acc rest
    have hx : x.isWhitespace = false := h x (by simp)
    rw [List.cons_append]
    simp only [splitWsGo, hx]
    rw [ih (fun c hc => h c (by simp [hc])) (x :: acc) rest]
    simp

theorem splitWsGo_ws_char (acc rest : Str) (c : Char) (h : c.isWhitespace = true) :
    splitWsGo acc (c :: rest) = acc.reverse :: splitWsGo [] rest := by
  simp only [splitWsGo, h, if_true]

theorem splitWsGo_all_nonws (a : Str) (h : ∀ c ∈ a, c.isWhitespace = false) (acc : Str) :
    splitWsGo acc a = [acc.reverse ++ a] := by
  have h2 := splitWsGo_seg a h acc []
  rw [List.append_nil] at h2
  rw [h2]
  show [(a.reverse ++ acc).reverse] = [acc.reverse ++ a]
  simp

theorem find_uuid_of_head (output name line : Str)
    (h : ((rustLines output).filter (fun l => containsB name l)).head? = some line) :
    find_uuid_in_blkid_command output name = uuidFromLine line := by
  rw [find_uuid_in_blkid_command, h]

theorem uuidFromLine_of_get (line seg : Str) (h : (splitWs line).get? 1 = some seg) :
    uuidFromLine line = uuidFromSeg seg := by
  rw [uuidFromLine, h]

theorem uuidFromSeg_of_get (seg v : Str) (h : (splitOnChar '=' seg).get? 1 = some v) :
    uuidFromSeg seg = if v = [] then .panic else .ok ((v.drop 1).dropLast) := by
  rw [uuidFromSeg, h]

theorem find_uuid_scenario (u : Str)
    (hw : ∀ c ∈ u, c.isWhitespace = false)
    (he : ∀ c ∈ u, ¬ c = '=') (hq : ∀ c ∈ u, ¬ c = '"') :
    find_uuid_in_blkid_command
      ("/dev/sdb2: UUID=\"9999-AAAA\" TYPE=\"vfat\"".toList
        ++ '\n' :: ("/dev/sda1: UUID=\"".toList ++ u ++ "\" TYPE=\"crypto_LUKS\"".toList))
      "sda1".toList
      = .ok u := by
  set l1 : Str := "/dev/sdb2: UUID=\"9999-AAAA\" TYPE=\"vfat\"".toList with hl1
  set l2 : Str := "/dev/sda1: UUID=\"".toList ++ u ++ "\" TYPE=\"crypto_LUKS\"".toList with hl2
  have hnl2 : ('\n' : Char) ∉ l2 := by
    rw [hl2]
    intro hm
    rcases List.mem_append.mp hm with hm1 | hm1
    · rcases List.mem_append.mp hm1 with hm2 | hm2
      · exact absurd hm2 (by decide)
      · exact absurd (hw _ hm2) (by decide)
    · exact absurd hm1 (by decide)
  have hsplit : splitOnChar '\n' (l1 ++ '\n' :: l2) = [l1, l2] := by
    rw [splitOnChar_append_sep '\n' l1 l2 (by rw [hl1]; decide),
        splitOnChar_no_sep '\n' l2 hnl2]
  have hl2ne : l2 ≠ [] := by
    rw [hl2]
    simp
  have hlines : rustLines (l1 ++ '\n' :: l2) = [l1, l2] := by
    rw [rustLines, hsplit]
    have hch : chompCR l1 = l1 := by rw [hl1]; decide
    have hgl : [l1, l2].getLast? = some l2 := by simp
    simp [hgl, hl2ne, List.dropLast, hch]
  have hf1 : containsB "sda1".toList l1 = false := by rw [hl1]; decide
  have hf2 : containsB "sda1".toList l2 = true := by
    rw [hl2]
    apply containsB_append_left
    apply containsB_append_left
    decide
  have hhead : ((rustLines (l1 ++ '\n' :: l2)).filter
      (fun l => containsB "sda1".toList l)).head? = some l2 := by
    rw [hlines, List.filter_cons, List.filter_cons]
    simp only [hf1, hf2, Bool.false_eq_true, if_false, if_true]
    rfl
  rw [find_uuid_of_head _ _ l2 hhead]
  have hshape : l2 = "/dev/sda1:".toList
      ++ ' ' :: ("UUID=\"".toList ++ (u ++ ('"' :: ' ' :: "TYPE=\"crypto_LUKS\"".toList))) := by
    rw [hl2]
    simp
  have htok : splitWs l2
      = ["/dev/sda1:".toList, "UUID=\"".toList ++ u ++ ['"'], "TYPE=\"crypto_LUKS\"".toList] := by
    rw [splitWs, hshape]
    rw [splitWsGo_seg "/dev/sda1:".toList (by decide) [] _]
    rw [splitWsGo_ws_char _ _ ' ' (by decide)]
    rw [splitWsGo_seg "UUID=\"".toList (by decide) [] _]
    rw [splitWsGo_seg u hw _ _]
    rw [show ('"' :: ' ' :: "TYPE=\"crypto_LUKS\"".toList)
          = ['"'] ++ (' ' :: "TYPE=\"crypto_LUKS\"".toList) from rfl]
    rw [splitWsGo_seg ['"'] (by decide) _ _]
    rw [splitWsGo_ws_char _ _ ' ' (by decide)]
    rw [splitWsGo_all_nonws "TYPE=\"crypto_LUKS\"".toList (by decide) []]
    simp [List.filter_cons]
  have hget1 : (splitWs l2).get? 1 = some ("UUID=\"".toList ++ u ++ ['"']) := by
    rw [htok]; rfl
  rw [uuidFromLine_of_get _ _ hget1]
  have htokshape : "UUID=\"".toList ++ u ++ ['"']
      = "UUID".toList ++ '=' :: ('"' :: (u ++ ['"'])) := by
    have hb : "UUID=\"".toList = "UUID".toList ++ '=' :: ['"'] := by decide
    rw [hb]
    simp
  have hnoeq : ('=' : Char) ∉ ('"' :: (u ++ ['"'])) := by
    intro hm
    rcases List.mem_cons.mp hm with hm1 | hm1
    · exact absurd hm1.symm (by decide)
    · rcases List.mem_append.mp hm1 with hm2 | hm2
      · exact he _ hm2 rfl
      · exact absurd hm2 (by decide)
  have hget2 : (splitOnChar '=' ("UUID=\"".toList ++ u ++ ['"'])).get? 1
      = some ('"' :: (u ++ ['"'])) := by
    rw [htokshape, splitOnChar_append_sep '=' "UUID".toList _ (by decide),
        splitOnChar_no_sep '=' _ hnoeq]
    rfl
  rw [uuidFromSeg_of_get _ _ hget2]
  rw [if_neg (by simp)]
  simp [List.dropLast_concat]

theorem find_uuid_no_match (output name : Str)
    (h : ∀ l ∈ rustLines output, containsB name l = false) :
    find_uuid_in_blkid_command output name = .panic := by
  have hf : (rustLines output).filter (fun l => containsB name l) = [] :=
    List.filter_eq_nil.mpr (fun a ha => by simp [h a ha])
  rw [find_uuid_in_blkid_command, hf]
  rfl

theorem parseConfigLines_short (e : List Str) (h : e.length < 10) :
    parseConfigLines e = .panic := by
  rcases e with _ | ⟨e0, e⟩
  · rfl
  rcases e with _ | ⟨e1, e⟩
  · rfl
  rcases e with _ | ⟨e2, e⟩
  · rfl
  rcases e with _ | ⟨e3, e⟩
  · rfl
  rcases e with _ | ⟨e4, e⟩
  · rfl
  rcases e with _ | ⟨e5, e⟩
  · rfl
  rcases e with _ | ⟨e6, e⟩
  · rfl
  rcases e with _ | ⟨e7, e⟩
  · rfl
  rcases e with _ | ⟨e8, e⟩
  · rfl
  rcases e with _ | ⟨e9, e⟩
  · rfl
  simp at h
  omega

theorem rootPasswordLoop_success_after (fail retry : Nat → Bool) :
    ∀ k i, (∀ j, j < k → fail (i + j) = true ∧ retry (i + j) = true) →
      fail (i + k) = false →
      rootPasswordLoop fail retry (k + 1) i = some .completed := by
  intro k
  induction k with
  | zero =>
    intro i _ hs
    simp only [rootPasswordLoop]
    rw [if_neg (by rw [show i + 0 = i from rfl] at hs; simp [hs])]
  | succ k ih =>
    intro i h hs
    have h0 := h 0 (by omega)
    rw [show i + 0 = i from rfl] at h0
    simp only [rootPasswordLoop]
    rw [if_pos (by simp [h0.1]), if_pos (by simp [h0.2])]
    apply ih (i + 1)
    · intro j hj
      have heq : i + 1 + j = i + (j + 1) := by omega
      rw [heq]
      exact h (j + 1) (by omega)
    · have heq : i + 1 + k = i + (k + 1) := by omega
      rw [heq]
      exact hs

theorem runSteps_succ_events (inp : RunInputs) (m : Nat) :
    (runSteps inp (m + 1)).2
      = (runSteps inp m).2
        ++ (execStep inp ((runSteps inp m).1).config.current_installation_step
             (runSteps inp m).1).2 := rfl

/-! ### The claims -/

/-- C1 (counterexample): a state reached by successfully executing steps
1..5 with a boot-partition name containing a double quote does not
round-trip: `save_config` writes the Debug-escaped `Some("a\"b")`, and
`load_config`, splitting on the double quote, reads back `a\` instead. -/
theorem c1_counterexample :
    ((runSteps inpQuote 5).1).config.boot_partition = some ['a', '"', 'b'] ∧
    load_config (some (save_config_string ((runSteps inpQuote 5).1).config))
      = LoadResult.ok
          { ((runSteps inpQuote 5).1).config with boot_partition := some ['a', '\\'] } ∧
    load_config (some (save_config_string ((runSteps inpQuote 5).1).config))
      ≠ LoadResult.ok ((runSteps inpQuote 5).1).config := by decide

/-- C1 (amended): for every run whose recorded free-text answers consist
of printable ASCII without a double quote or backslash, the state reached
by successfully executing steps 1..k (k < totalSteps) has
`currentStep = k + 1`, and persisting it with save and reloading with
load yields exactly that state (every recorded field unchanged). -/
theorem c1_roundtrip_amended (inp : RunInputs) (k : Nat) (hk : k < 34)
    (hi : cleanInputs inp) :
    ((runSteps inp k).1).config.current_installation_step = k + 1 ∧
    load_config (some (save_config_string ((runSteps inp k).1).config))
      = LoadResult.ok ((runSteps inp k).1).config := by
  have hcur := runSteps_current inp k (by omega)
  have htot := runSteps_total inp k
  have hcl := runSteps_clean inp k hi
  refine ⟨hcur, ?_⟩
  exact load_save_roundtrip _ hcl.1 hcl.2.1 hcl.2.2.1 hcl.2.2.2.1 hcl.2.2.2.2.1
    hcl.2.2.2.2.2 (by rw [hcur]; omega) (by rw [htot]; omega)

/-- C1 (witness): the round-trip property evaluated on a concrete clean
UEFI-mode run after step 6. -/
theorem c1_witness :
    6 < 34 ∧ cleanInputs inpDemo ∧
    (((runSteps inpDemo 6).1).config.current_installation_step = 6 + 1 ∧
     load_config (some (save_config_string ((runSteps inpDemo 6).1).config))
       = LoadResult.ok ((runSteps inpDemo 6).1).config) :=
  ⟨by decide, by unfold cleanInputs; decide,
   c1_roundtrip_amended inpDemo 6 (by decide) (by unfold cleanInputs; decide)⟩

/-- C2 (counterexample): when the operator declines to resume, the
in-memory state is reset but the persisted record is not deleted — the
resume branch of `main` performs no file operation, so the record is
still on disk afterwards. -/
theorem c2_counterexample :
    (resumeDecision cfgSeed (some (save_config_string cfgSeed)) ['n']).disk
      = some (save_config_string cfgSeed) ∧
    (resumeDecision cfgSeed (some (save_config_string cfgSeed)) ['n']).disk ≠ none ∧
    (resumeDecision cfgSeed (some (save_config_string cfgSeed)) ['n']).config
      = cfgSeed.reset := by decide

/-- C2 (amended): when a prior persisted record is loaded at startup and
the operator declines to resume, the in-memory state becomes a fresh
state (all optional partition identifiers None, root partition and
username empty, both flags false, currentStep = 1, totalSteps kept), but
the persisted record is not deleted from disk: it survives unchanged
until the first step's save overwrites it. -/
theorem c2_decline_resume (cfg : AppConfig) (disk : Option Str) (typed : Str)
    (h : isNo typed = true) :
    (resumeDecision cfg disk typed).disk = disk ∧
    (resumeDecision cfg disk typed).config.uefi_install = false ∧
    (resumeDecision cfg disk typed).config.uefi_partition = none ∧
    (resumeDecision cfg disk typed).config.boot_partition = none ∧
    (resumeDecision cfg disk typed).config.root_partition = [] ∧
    (resumeDecision cfg disk typed).config.home_partition = none ∧
    (resumeDecision cfg disk typed).config.username = [] ∧
    (resumeDecision cfg disk typed).config.encrypted_partitons = false ∧
    (resumeDecision cfg disk typed).config.swap_partition = none ∧
    (resumeDecision cfg disk typed).config.current_installation_step = 1 ∧
    (resumeDecision cfg disk typed).config.total_installation_steps
      = cfg.total_installation_steps := by
  simp only [isNo, Bool.or_eq_true, decide_eq_true_eq] at h
  rcases h with h3 | h3 <;> subst h3 <;>
    exact ⟨rfl, rfl, rfl, rfl, rfl, rfl, rfl, rfl, rfl, rfl, rfl⟩

/-- C2 (witness): the decline branch evaluated on a concrete loaded
record. -/
theorem c2_witness :
    isNo ['n'] = true ∧
    (resumeDecision cfgSeed (some (save_config_string cfgSeed)) ['n']).disk
      = some (save_config_string cfgSeed) ∧
    (resumeDecision cfgSeed (some (save_config_string cfgSeed)) ['n']).config.username
      = [] :=
  ⟨by decide,
   (c2_decline_resume cfgSeed (some (save_config_string cfgSeed)) ['n'] (by decide)).1,
   (c2_decline_resume cfgSeed (some (save_config_string cfgSeed)) ['n'] (by decide)).2.2.2.2.2.2.1⟩

/-- C3 (counterexample): a present record with a mismatched field count
(a single line) makes `load_config` panic — an index out of bounds on
`app_config_elements[1]` — instead of returning a recoverable
CorruptState error. -/
theorem c3_counterexample :
    load_config (some "true".toList) = LoadResult.panic := by decide

/-- C3 (amended): load returns an error value (treated by `main` as "no
prior run") when no persisted record file exists; but when the file is
present with a mismatched field count, or with a current-step field that
does not parse as an eight-bit integer, the program panics (crashes via
`expect` or an out-of-bounds index) rather than surfacing a CorruptState
error to the operator. -/
theorem c3_load_errors :
    load_config none = LoadResult.err ∧
    (∀ content : Str, (splitOnChar '\n' content).length < 10 →
        load_config (some content) = LoadResult.panic) ∧
    (∀ f0 f1 f2 f3 f4 f5 f6 f7 f8 f9 : Str,
        '\n' ∉ f0 → '\n' ∉ f1 → '\n' ∉ f2 → '\n' ∉ f3 → '\n' ∉ f4 →
        '\n' ∉ f5 → '\n' ∉ f6 → '\n' ∉ f7 → '\n' ∉ f8 → '\n' ∉ f9 →
        parseU8 f8 = none →
        load_config (some (joinWith '\n' [f0, f1, f2, f3, f4, f5, f6, f7, f8, f9]))
          = LoadResult.panic) := by
  refine ⟨rfl, ?_, ?_⟩
  · intro content h
    exact parseConfigLines_short _ h
  · intro f0 f1 f2 f3 f4 f5 f6 f7 f8 f9 h0 h1 h2 h3 h4 h5 h6 h7 h8 h9 hp
    have he : splitOnChar '\n' (joinWith '\n' [f0, f1, f2, f3, f4, f5, f6, f7, f8, f9])
        = [f0, f1, f2, f3, f4, f5, f6, f7, f8, f9] := by
      apply splitOnChar_joinWith '\n' _ (by simp)
      intro f hf
      simp only [List.mem_cons, List.not_mem_nil, or_false] at hf
      rcases hf with rfl | rfl | rfl | rfl | rfl | rfl | rfl | rfl | rfl | rfl <;>
        assumption
    show parseConfigLines _ = LoadResult.panic
    rw [he, parseConfigLines]
    rcases parseOptField f1 with _ | up
    · rfl
    rcases parseOptField f2 with _ | bp
    · rfl
    rcases parseOptField f4 with _ | hp2
    · rfl
    rcases parseOptField f7 with _ | sp
    · rfl
    rw [hp]

/-- C3 (witness): the amended behaviour evaluated at concrete inputs —
the absent file, a one-line record, and a ten-line record with an
unparsable step field. -/
theorem c3_witness :
    load_config none = LoadResult.err ∧
    load_config (some "true".toList) = LoadResult.panic ∧
    load_config (some (joinWith '\n'
      ["true".toList, "None".toList, "None".toList, "sda2".toList, "None".toList,
       "amir".toList, "false".toList, "None".toList, "abc".toList, "34".toList]))
      = LoadResult.panic :=
  ⟨c3_load_errors.1,
   c3_load_errors.2.1 "true".toList (by decide),
   c3_load_errors.2.2 "true".toList "None".toList "None".toList "sda2".toList
     "None".toList "amir".toList "false".toList "None".toList "abc".toList "34".toList
     (by decide) (by decide) (by decide) (by decide) (by decide) (by decide)
     (by decide) (by decide) (by decide) (by decide) (by decide)⟩

/-- C4 (counterexample): applied to a listing in which no line contains
the requested name, the identifier extractor panics — the `[0]` index on
the empty filtered vector — instead of returning a NotFound error. -/
theorem c4_counterexample :
    find_uuid_in_blkid_command
      "/dev/sda1: UUID=\"1234-ABCD\" TYPE=\"ext4\"".toList "sdb7".toList
      = ExtractResult.panic := by decide

/-- C4 (amended): for every input in which no line contains the name the
identifier extractor panics via an out-of-bounds index (it has no
NotFound-returning path); when a line does match, it returns the bare
quote-stripped identifier of the first matching line, as in the spec
scenario: a listing whose second line carries the root name and a quoted
UUID `u` yields `u`, for every quote-, equals- and whitespace-free `u`. -/
theorem c4_extractor :
    (∀ output name : Str, (∀ l ∈ rustLines output, containsB name l = false) →
        find_uuid_in_blkid_command output name = ExtractResult.panic) ∧
    (∀ u : Str, (∀ c ∈ u, c.isWhitespace = false) → (∀ c ∈ u, ¬ c = '=') →
        (∀ c ∈ u, ¬ c = '"') →
        find_uuid_in_blkid_command
          ("/dev/sdb2: UUID=\"9999-AAAA\" TYPE=\"vfat\"".toList
            ++ '\n' :: ("/dev/sda1: UUID=\"".toList ++ u ++ "\" TYPE=\"crypto_LUKS\"".toList))
          "sda1".toList
          = ExtractResult.ok u) :=
  ⟨find_uuid_no_match, find_uuid_scenario⟩

/-- C4 (witness): the amended behaviour evaluated at a concrete missing
name and a concrete UUID. -/
theorem c4_witness :
    find_uuid_in_blkid_command "/dev/sda1: UUID=\"1234\" TYPE=\"ext4\"".toList
      "nvme0n1".toList = ExtractResult.panic ∧
    find_uuid_in_blkid_command
      ("/dev/sdb2: UUID=\"9999-AAAA\" TYPE=\"vfat\"".toList
        ++ '\n' :: ("/dev/sda1: UUID=\"".toList ++ "77aa-11bb".toList
          ++ "\" TYPE=\"crypto_LUKS\"".toList))
      "sda1".toList = ExtractResult.ok "77aa-11bb".toList :=
  ⟨c4_extractor.1 _ _ (by decide),
   c4_extractor.2 "77aa-11bb".toList (by decide) (by decide) (by decide)⟩

/-- C5 (counterexample): with both GPU answers affirmative the modules
line becomes `MODULES=(i915 nvidia)` — the Intel module is listed first,
not the Nvidia one as the claim states. -/
theorem c5_counterexample :
    mkinitcpioModulesEdit true true "MODULES=()".toList
      = "MODULES=(i915 nvidia)".toList ∧
    isPrefixB "MODULES=(nvidia".toList
      (mkinitcpioModulesEdit true true "MODULES=()".toList) = false := by decide

/-- C5 (amended): on a configuration whose text is `pre ++ MODULES=() ++
post`, with no occurrence of the pattern starting inside `pre` and none
in `post`, the two answers produce exactly four outcomes: neither GPU
leaves the text unchanged; Nvidia only loads only the nvidia module;
Intel only loads only the i915 module; both load both modules with Intel
(i915) listed first. -/
theorem c5_gpu_outcomes (pre post : Str)
    (h1 : containsB "MODULES=()".toList (pre ++ "MODULES=()".toList.dropLast) = false)
    (h2 : containsB "MODULES=()".toList post = false) :
    mkinitcpioModulesEdit false false (pre ++ "MODULES=()".toList ++ post)
      = pre ++ "MODULES=()".toList ++ post ∧
    mkinitcpioModulesEdit true false (pre ++ "MODULES=()".toList ++ post)
      = pre ++ "MODULES=(nvidia)".toList ++ post ∧
    mkinitcpioModulesEdit false true (pre ++ "MODULES=()".toList ++ post)
      = pre ++ "MODULES=(i915)".toList ++ post ∧
    mkinitcpioModulesEdit true true (pre ++ "MODULES=()".toList ++ post)
      = pre ++ "MODULES=(i915 nvidia)".toList ++ post := by
  refine ⟨rfl, ?_, ?_, ?_⟩ <;>
    · show replaceAll _ _ _ = _
      rw [replaceAll_boundary _ _ _ _ (by decide) h1, replaceAll_no_occ _ _ _ h2]

/-- C5 (witness): the four outcomes evaluated on a concrete mkinitcpio
fragment. -/
theorem c5_witness :
    mkinitcpioModulesEdit false false
      ("# vim:set ft=sh\n".toList ++ "MODULES=()".toList ++ "\nBINARIES=()".toList)
      = "# vim:set ft=sh\n".toList ++ "MODULES=()".toList ++ "\nBINARIES=()".toList ∧
    mkinitcpioModulesEdit true true
      ("# vim:set ft=sh\n".toList ++ "MODULES=()".toList ++ "\nBINARIES=()".toList)
      = "# vim:set ft=sh\n".toList ++ "MODULES=(i915 nvidia)".toList
        ++ "\nBINARIES=()".toList :=
  ⟨(c5_gpu_outcomes "# vim:set ft=sh\n".toList "\nBINARIES=()".toList
      (by decide) (by decide)).1,
   (c5_gpu_outcomes "# vim:set ft=sh\n".toList "\nBINARIES=()".toList
      (by decide) (by decide)).2.2.2⟩

/-- C6 (counterexample): when the child process cannot be launched at
all, `run_command` panics — `status().unwrap()` — instead of returning a
failure value carrying a launch-error description. -/
theorem c6_counterexample :
    run_command_result (SpawnOutcome.launchFailed "No such file or directory".toList)
      = RunCmdResult.panic := by decide

/-- C6 (amended): `run_command` returns success exactly when the child
exits with code 0, and for every non-zero exit code returns a failure
value carrying the numeric code; but a failure to launch the process (or
termination by a signal, which leaves no exit code) makes the program
panic via `unwrap` rather than return a failure value. -/
theorem c6_exit_policy :
    (∀ c : Int, run_command_result (SpawnOutcome.exited c) = RunCmdResult.ok ↔ c = 0) ∧
    (∀ c : Int, c ≠ 0 →
        run_command_result (SpawnOutcome.exited c) = RunCmdResult.err c) ∧
    (∀ m : Str, run_command_result (SpawnOutcome.launchFailed m) = RunCmdResult.panic) ∧
    run_command_result SpawnOutcome.killedBySignal = RunCmdResult.panic := by
  refine ⟨?_, ?_, fun m => rfl, rfl⟩
  · intro c
    rw [run_command_result]
    split_ifs with hc
    · simp [hc]
    · simp [hc]
  · intro c hc
    rw [run_command_result, if_neg hc]

/-- C6 (witness): the exit policy evaluated at concrete outcomes. -/
theorem c6_witness :
    (run_command_result (SpawnOutcome.exited 0) = RunCmdResult.ok ↔ (0 : Int) = 0) ∧
    run_command_result (SpawnOutcome.exited 127) = RunCmdResult.err 127 :=
  ⟨c6_exit_policy.1 0, c6_exit_policy.2.1 127 (by decide)⟩

/-- C7: in the root-password step, a failed attempt is always followed by
the retry question: an affirmative answer re-runs the command (with no
bound — for every k, k failures all answered yes followed by a success
complete the step), a negative answer aborts the run; a successful
attempt completes the step at once; and the step body never modifies the
state record, so an earlier failure leaves no trace in the persisted
state. -/
theorem c7_retry_policy :
    (∀ fail retry : Nat → Bool, ∀ i fuel, fail i = true →
        rootPasswordLoop fail retry (fuel + 1) i
          = if retry i = true then rootPasswordLoop fail retry fuel (i + 1)
            else some StepOutcome.aborted) ∧
    (∀ fail retry : Nat → Bool, ∀ i fuel, fail i = false →
        rootPasswordLoop fail retry (fuel + 1) i = some StepOutcome.completed) ∧
    (∀ fail retry : Nat → Bool, ∀ k, (∀ j, j < k → fail j = true ∧ retry j = true) →
        fail k = false →
        rootPasswordLoop fail retry (k + 1) 0 = some StepOutcome.completed) ∧
    (∀ (inp : RunInputs) (s : StepState), ((execStep inp 20 s).1).config = s.config) := by
  refine ⟨?_, ?_, ?_, ?_⟩
  · intro fail retry i fuel hf
    simp only [rootPasswordLoop, hf, if_true]
  · intro fail retry i fuel hf
    simp only [rootPasswordLoop, hf]
    rfl
  · intro fail retry k h hs
    have := rootPasswordLoop_success_after fail retry k 0
      (by intro j hj; simpa using h j hj) (by simpa using hs)
    exact this
  · intro inp s
    simp only [execStep]
    norm_num [step20]

/-- C7 (witness): one failure, an affirmative retry answer, then success
— the loop completes, at a concrete failure pattern. -/
theorem c7_witness :
    rootPasswordLoop (fun i => decide (i = 0)) (fun _ => true) 2 0
      = some StepOutcome.completed :=
  c7_retry_policy.2.2.1 (fun i => decide (i = 0)) (fun _ => true) 1
    (by intro j hj
        have hj0 : j = 0 := by omega
        subst hj0
        exact ⟨by decide, rfl⟩)
    (by decide)

/-- C8: in a BIOS-mode run (the step-1 selection is not `2`) no
UEFI-partition action ever prompts or runs — after any number of
iterations of the sequencer from a fresh state the trace contains no
UEFI event and `uefi_partition` stays unset; in a UEFI-mode state, the
UEFI partition name prompt runs (and records the partition) whenever
step 5 executes, and the `efibootmgr` install runs whenever step 25
executes — in particular, in a fresh UEFI-mode run, from iteration 5 on
the trace contains the UEFI-name prompt and from iteration 25 on the
`efibootmgr` install. -/
theorem c8_firmware_mode (inp : RunInputs) :
    (inp.installMode ≠ ['2'] →
      ∀ n, ((runSteps inp n).1).config.uefi_partition = none ∧
        ∀ e ∈ (runSteps inp n).2, uefiEvent e = false) ∧
    (∀ s : StepState, s.config.uefi_install = true →
      (InstallEvent.askUefiPartitionName ∈ (execStep inp 5 s).2 ∧
       ((execStep inp 5 s).1).config.uefi_partition = some inp.uefiName) ∧
      InstallEvent.cmdInstallEfibootmgr ∈ (execStep inp 25 s).2) ∧
    (inp.installMode = ['2'] →
      ∀ n, 5 ≤ n → InstallEvent.askUefiPartitionName ∈ (runSteps inp n).2) ∧
    (inp.installMode = ['2'] →
      ∀ n, 25 ≤ n → InstallEvent.cmdInstallEfibootmgr ∈ (runSteps inp n).2) := by
  refine ⟨?_, ?_, ?_, ?_⟩
  · intro hm n
    have h := runSteps_noUefi inp n hm
    exact ⟨h.2.1, h.2.2⟩
  · intro s hs
    exact ⟨execStep5_events inp s hs, execStep25_events inp s hs⟩
  · intro hm n hn
    have h4 : ((runSteps inp 4).1).config.uefi_install = true :=
      runSteps_uefi_install inp hm 4 (by omega)
    have hcur : ((runSteps inp 4).1).config.current_installation_step = 5 :=
      runSteps_current inp 4 (by omega)
    have hmem : InstallEvent.askUefiPartitionName ∈ (runSteps inp 5).2 := by
      rw [show (5 : Nat) = 4 + 1 from rfl, runSteps_succ_events inp 4, hcur]
      exact List.mem_append_right _ (execStep5_events inp _ h4).1
    exact runSteps_trace_mono inp _ hn hmem
  · intro hm n hn
    have h24 : ((runSteps inp 24).1).config.uefi_install = true :=
      runSteps_uefi_install inp hm 24 (by omega)
    have hcur : ((runSteps inp 24).1).config.current_installation_step = 25 :=
      runSteps_current inp 24 (by omega)
    have hmem : InstallEvent.cmdInstallEfibootmgr ∈ (runSteps inp 25).2 := by
      rw [show (25 : Nat) = 24 + 1 from rfl, runSteps_succ_events inp 24, hcur]
      exact List.mem_append_right _ (execStep25_events inp _ h24)
    exact runSteps_trace_mono inp _ hn hmem

/-- C8 (witness): the BIOS half after eight iterations of a concrete
BIOS run, and the UEFI half after six iterations of a concrete UEFI
run. -/
theorem c8_witness :
    ((runSteps inpBios 8).1).config.uefi_partition = none ∧
    InstallEvent.askUefiPartitionName ∈ (runSteps inpDemo 6).2 :=
  ⟨((c8_firmware_mode inpBios).1 (by decide) 8).1,
   (c8_firmware_mode inpDemo).2.2.1 (by decide) 6 (by omega)⟩

/-- C9 (counterexample): the pacman.conf replacement chain is not
idempotent on every content: on `##Color` the first application yields
`#Color` (the replacement of the inner occurrence re-creates the `from`
string), and the second application changes the text again. -/
theorem c9_counterexample :
    pacmanPatch "##Color".toList = "#Color".toList ∧
    pacmanPatch (pacmanPatch "##Color".toList) = "Color".toList ∧
    pacmanPatch (pacmanPatch "##Color".toList) ≠ pacmanPatch "##Color".toList := by
  decide

/-- C9 (amended): the pacman.conf edit chain is idempotent on every file
content whose once-patched result no longer contains any of the three
`from` strings (the situation the spec's own justification describes);
for such content the second application is a no-op. -/
theorem c9_patch_idempotent (content : Str)
    (h1 : containsB "#Color".toList (pacmanPatch content) = false)
    (h2 : containsB "#VerbosePkgLists".toList (pacmanPatch content) = false)
    (h3 : containsB "#ParallelDownloads = 5".toList (pacmanPatch content) = false) :
    pacmanPatch (pacmanPatch content) = pacmanPatch content := by
  conv_lhs => rw [pacmanPatch]
  rw [replaceAll_no_occ _ _ _ h1, replaceAll_no_occ _ _ _ h2,
      replaceAll_no_occ _ _ _ h3]

/-- C9 (witness): idempotence evaluated on a concrete pacman.conf
fragment containing all three patched lines. -/
theorem c9_witness :
    pacmanPatch (pacmanPatch pacmanSample) = pacmanPatch pacmanSample :=
  c9_patch_idempotent pacmanSample (by decide) (by decide) (by decide)

/-- C10: step 19 writes the hosts file from the answer buffer alone (for
every state, whatever the configuration record holds), and steps 22 and
23 pass the answer buffer — not the persisted `username` field — to
their external commands; after an affirmative resume answer the buffer
holds exactly the typed resume-prompt text while the loaded configuration
is kept, so a run resumed directly at one of these steps uses that typed
text. -/
theorem c10_register_use :
    (∀ (inp : RunInputs) (s : StepState),
        (execStep inp 19 s).2 = [InstallEvent.writeHostsFile (hostsContent s.answer)] ∧
        (execStep inp 22 s).2 = [InstallEvent.cmdPasswdUser s.answer] ∧
        (execStep inp 23 s).2 = [InstallEvent.cmdUsermodWheel s.answer]) ∧
    (∀ (cfg : AppConfig) (disk : Option Str) (typed : Str), isYes typed = true →
        (resumeDecision cfg disk typed).answer = typed ∧
        (resumeDecision cfg disk typed).config = cfg) := by
  constructor
  · intro inp s
    refine ⟨?_, ?_, ?_⟩
    · simp only [execStep]; norm_num [step19]
    · simp only [execStep]; norm_num [step22]
    · simp only [execStep]; norm_num [step23]
  · intro cfg disk typed h
    rw [resumeDecision, if_pos h]
    exact ⟨rfl, rfl⟩

/-- C10 (witness): a run resumed at step 19 with the typed answer `Y`
writes the hosts file built from `Y`, not from any persisted field. -/
theorem c10_witness :
    (resumeDecision cfgSeed (some (save_config_string cfgSeed)) ['Y']).answer = ['Y'] ∧
    (execStep inpDemo 19 ⟨cfgSeed, ['Y']⟩).2
      = [InstallEvent.writeHostsFile (hostsContent ['Y'])] :=
  ⟨(c10_register_use.2 cfgSeed (some (save_config_string cfgSeed)) ['Y'] (by decide)).1,
   (c10_register_use.1 inpDemo ⟨cfgSeed, ['Y']⟩).1⟩
